import Mathlib

/-!
# WRENCH: the Data Movement Manager, network connections and cloud services

A shallow embedding of `src/wrench/managers/DataMovementManager.cpp` and of
`src/wrench/simgrid_S4U_util/S4U_DaemonActor.h`, with models of `NetworkConnection` and of
the virtualized cluster and cloud services, whose code is not among the sources and
which are modelled from the spec and the tests.

Conventions of the embedding.

* Objects (`WorkflowFile`, `StorageService`, `FileRegistryService`) are identified by
  their address, a natural number. A pointer that the code tests against `nullptr`
  is an `Option` of such an address (`none` is `nullptr`); a pointer that the code
  uses without a test is the address of a valid object.
* The manager's state is its mailbox name and its list `pending_file_copies`.
* Every operation returns a `Result`: the manager's state when the call ends, the
  calls made to other services in the order they were made, and the outcome (a
  returned value or the exception that leaves the function).
* What the other services answer is read from an `Environment`.
-/

namespace wrench

/-- Address of a `WorkflowFile` object. -/
abbrev WorkflowFile := Nat

/-- Address of a `StorageService` object. -/
abbrev StorageService := Nat

/-- Address of a `FileRegistryService` object. -/
abbrev FileRegistryService := Nat

/-- Failure causes carried by a `WorkflowExecutionException` or by an answer message.
`FileAlreadyBeingCopied` is the one the manager builds itself (lines 121 and 185);
`other` stands for any cause built elsewhere. -/
inductive FailureCause where
  | FileAlreadyBeingCopied (file : WorkflowFile) (dst : StorageService) (dst_partition : String)
  | other (id : Nat)
  deriving DecidableEq, Repr

/-- Exceptions that leave the manager's functions. -/
inductive Exception where
  | invalid_argument
  | runtime_error
  | WorkflowExecutionException (cause : FailureCause)
  deriving DecidableEq, Repr

/-- The record `DataMovementManager::CopyRequestSpecs`, built by
`CopyRequestSpecs(file, dst, dst_partition, file_registry_service)`. -/
structure CopyRequestSpecs where
  file : WorkflowFile
  dst : StorageService
  dst_partition : String
  file_registry_service : Option FileRegistryService
  deriving DecidableEq, Repr

/-- Modelled from the spec: `CopyRequestSpecs::operator==` is declared in
`DataMovementManager.h`, which is not among the sources. The spec says: identity/equality
for deduplication is the triple (file, destination service, destination partition); the
registry reference is not part of identity. -/
def CopyRequestSpecs.operator_eq (lhs rhs : CopyRequestSpecs) : Bool :=
  decide (lhs.file = rhs.file) && decide (lhs.dst = rhs.dst)
    && decide (lhs.dst_partition = rhs.dst_partition)

/-- The fields of a `StorageServiceFileCopyAnswerMessage`, in the order of the constructor
call at lines 283-289 (the payload is left out). `file` is dereferenced without a test at
line 282, hence a valid object. -/
structure StorageServiceFileCopyAnswerMessage where
  file : WorkflowFile
  storage_service : StorageService
  dst_partition : String
  file_registry_service : Option FileRegistryService
  file_registry_service_updated : Bool
  success : Bool
  failure_cause : Option FailureCause
  deriving DecidableEq, Repr

/-- The messages `processNextMessage` tells apart with its chain of `dynamic_cast`s. -/
inductive SimulationMessage where
  | ServiceStopDaemonMessage
  | StorageServiceFileCopyAnswerMessage (msg : wrench.StorageServiceFileCopyAnswerMessage)
  | other (name : String)
  deriving DecidableEq, Repr

/-- What `S4U_Mailbox::getMessage(this->mailbox_name)` does at line 237: it raises a
`NetworkError`, or returns a pointer to a message, which may be `nullptr`. -/
inductive Received where
  | NetworkError
  | message (m : Option SimulationMessage)
  deriving DecidableEq, Repr

/-- A call made by the manager to another service. -/
inductive Call where
  | initiateFileCopy (dst : StorageService) (answer_mailbox : String) (file : WorkflowFile)
      (src : StorageService) (src_partition : String) (dst_partition : String)
  | copyFile (dst : StorageService) (file : WorkflowFile) (src : StorageService)
  | addEntry (file_registry_service : FileRegistryService) (file : WorkflowFile)
      (dst : StorageService)
  | dputMessage (mailbox : String) (msg : StorageServiceFileCopyAnswerMessage)
  deriving DecidableEq, Repr

/-- Modelled from the spec: the storage service, the file registry service, the mailbox
layer and the workflow are external collaborators whose code is not among the sources.
The spec (section 6) lists `initiateFileCopy(callbackMailbox, file, src, srcPartition,
dstPartition)`, `copyFile(file, src)` and `addEntry(file, location)` "failing with a
recoverable registry error", and (section 4.1) a send that "may fail with a network
error". Each answer is `none` when the call returns normally; for the three service
calls `some cause` is a `WorkflowExecutionException` with that cause (the exception the
manager's `catch` clauses name), for `dputMessage` the answer `true` is a `NetworkError`.
`getCallbackMailbox file` is `file->getWorkflow()->getCallbackMailbox()`. -/
structure Environment where
  initiateFileCopy : StorageService → String → WorkflowFile → StorageService → String →
    String → Option FailureCause
  copyFile : StorageService → WorkflowFile → StorageService → Option FailureCause
  addEntry : FileRegistryService → WorkflowFile → StorageService → Option FailureCause
  dputMessage : String → StorageServiceFileCopyAnswerMessage → Bool
  getCallbackMailbox : WorkflowFile → String

/-- State of a `DataMovementManager`: its mailbox name and the list
`pending_file_copies` (front of the list first). -/
structure DataMovementManager where
  mailbox_name : String
  pending_file_copies : List CopyRequestSpecs
  deriving DecidableEq, Repr

/-- What a call of one of the manager's functions leaves behind. -/
structure Result (α : Type) where
  manager : DataMovementManager
  calls : List Call
  outcome : Except Exception α

/-- Lines 109-114 and 173-178: `if (partition.empty()) partition = "/";`. -/
def normalizePartition (partition : String) : String :=
  if partition = "" then "/" else partition

/-- The loop of lines 119-123 and 183-187: does some pending request equal `request`? -/
def isPending (pending : List CopyRequestSpecs) (request : CopyRequestSpecs) : Bool :=
  pending.any (fun p => p.operator_eq request)

namespace DataMovementManager

/-- The function `DataMovementManager::initiateAsynchronousFileCopy`, 6-argument overload
(lines 100-135). -/
def initiateAsynchronousFileCopy (self : DataMovementManager) (env : Environment)
    (file : Option WorkflowFile) (src : Option StorageService) (src_partition : String)
    (dst : Option StorageService) (dst_partition : String)
    (file_registry_service : Option FileRegistryService) : Result Unit :=
  match file, src, dst with
  | some file, some src, some dst =>
    let src_partition := normalizePartition src_partition
    let dst_partition := normalizePartition dst_partition
    let request : CopyRequestSpecs := ⟨file, dst, dst_partition, file_registry_service⟩
    if isPending self.pending_file_copies request then
      ⟨self, [],
        .error (.WorkflowExecutionException (.FileAlreadyBeingCopied file dst dst_partition))⟩
    else
      let self1 : DataMovementManager :=
        { self with
          pending_file_copies :=
            ⟨file, dst, dst_partition, file_registry_service⟩ :: self.pending_file_copies }
      let call := Call.initiateFileCopy dst self.mailbox_name file src src_partition dst_partition
      match env.initiateFileCopy dst self.mailbox_name file src src_partition dst_partition with
      | none => ⟨self1, [call], .ok ()⟩
      | some cause => ⟨self1, [call], .error (.WorkflowExecutionException cause)⟩
  | _, _, _ => ⟨self, [], .error .invalid_argument⟩

/-- The function `DataMovementManager::doSynchronousFileCopy`, 6-argument overload
(lines 164-201). -/
def doSynchronousFileCopy (self : DataMovementManager) (env : Environment)
    (file : Option WorkflowFile) (src : Option StorageService) (src_partition : String)
    (dst : Option StorageService) (dst_partition : String)
    (file_registry_service : Option FileRegistryService) : Result Unit :=
  match file, src, dst with
  | some file, some src, some dst =>
    let _src_partition := normalizePartition src_partition
    let dst_partition := normalizePartition dst_partition
    let request : CopyRequestSpecs := ⟨file, dst, dst_partition, file_registry_service⟩
    if isPending self.pending_file_copies request then
      ⟨self, [],
        .error (.WorkflowExecutionException (.FileAlreadyBeingCopied file dst dst_partition))⟩
    else
      match env.copyFile dst file src with
      | some cause => ⟨self, [.copyFile dst file src], .error (.WorkflowExecutionException cause)⟩
      | none =>
        match file_registry_service with
        | none => ⟨self, [.copyFile dst file src], .ok ()⟩
        | some frs =>
          match env.addEntry frs file dst with
          | none => ⟨self, [.copyFile dst file src, .addEntry frs file dst], .ok ()⟩
          | some cause =>
            ⟨self, [.copyFile dst file src, .addEntry frs file dst],
              .error (.WorkflowExecutionException cause)⟩
  | _, _, _ => ⟨self, [], .error .invalid_argument⟩

/-- The loop of lines 257-265: walk the pending list from the front; at the first entry
equal to `request`, copy its `file_registry_service` into `request`, erase the entry and
stop. Returns the request and the list after the loop. -/
def findAndErase (request : CopyRequestSpecs) :
    List CopyRequestSpecs → CopyRequestSpecs × List CopyRequestSpecs
  | [] => (request, [])
  | p :: rest =>
    if p.operator_eq request then
      ({ request with file_registry_service := p.file_registry_service }, rest)
    else
      ((findAndErase request rest).1, p :: (findAndErase request rest).2)

/-- The function `DataMovementManager::processNextMessage` (lines 232-299); `received` is what
`S4U_Mailbox::getMessage` does at line 237. -/
def processNextMessage (self : DataMovementManager) (env : Environment)
    (received : Received) : Result Bool :=
  match received with
  | .NetworkError => ⟨self, [], .ok true⟩
  | .message none => ⟨self, [], .ok false⟩
  | .message (some .ServiceStopDaemonMessage) => ⟨self, [], .ok false⟩
  | .message (some (.StorageServiceFileCopyAnswerMessage msg)) =>
    let found := findAndErase ⟨msg.file, msg.storage_service, msg.dst_partition, none⟩
      self.pending_file_copies
    let request := found.1
    let self1 : DataMovementManager := { self with pending_file_copies := found.2 }
    let registered : Bool × List Call :=
      match request.file_registry_service with
      | none => (false, [])
      | some frs =>
        match env.addEntry frs request.file request.dst with
        | none => (true, [.addEntry frs request.file request.dst])
        | some _ => (false, [.addEntry frs request.file request.dst])
    let file_registry_service_updated := registered.1
    let mailbox := env.getCallbackMailbox msg.file
    let answer : StorageServiceFileCopyAnswerMessage :=
      ⟨request.file, request.dst, request.dst_partition, request.file_registry_service,
        file_registry_service_updated, msg.success, msg.failure_cause⟩
    match env.dputMessage mailbox answer with
    | true => ⟨self1, registered.2 ++ [.dputMessage mailbox answer], .ok true⟩
    | false => ⟨self1, registered.2 ++ [.dputMessage mailbox answer], .ok true⟩
  | .message (some (.other _)) => ⟨self, [], .error .runtime_error⟩

end DataMovementManager

/-- The answer messages handed to `S4U_Mailbox::dputMessage` in a list of calls, each with
the mailbox it was sent to, in order. -/
def forwardedMessages (calls : List Call) : List (String × StorageServiceFileCopyAnswerMessage) :=
  calls.filterMap fun c =>
    match c with
    | .dputMessage mailbox msg => some (mailbox, msg)
    | _ => none

/-- The `addEntry` calls in a list of calls, in order. -/
def addEntryCalls (calls : List Call) : List Call :=
  calls.filter fun c =>
    match c with
    | .addEntry _ _ _ => true
    | _ => false

/-- One call of a public operation of the manager, with its arguments. -/
inductive Operation where
  | initiateAsynchronousFileCopy (file : Option WorkflowFile) (src : Option StorageService)
      (src_partition : String) (dst : Option StorageService) (dst_partition : String)
      (file_registry_service : Option FileRegistryService)
  | doSynchronousFileCopy (file : Option WorkflowFile) (src : Option StorageService)
      (src_partition : String) (dst : Option StorageService) (dst_partition : String)
      (file_registry_service : Option FileRegistryService)
  | processNextMessage (received : Received)

namespace DataMovementManager

/-- The manager's state after one operation, whether it returned or raised. -/
def step (self : DataMovementManager) (env : Environment) : Operation → DataMovementManager
  | .initiateAsynchronousFileCopy file src sp dst dp frs =>
    (self.initiateAsynchronousFileCopy env file src sp dst dp frs).manager
  | .doSynchronousFileCopy file src sp dst dp frs =>
    (self.doSynchronousFileCopy env file src sp dst dp frs).manager
  | .processNextMessage received => (self.processNextMessage env received).manager

/-- The manager's state after a sequence of operations, each run against the environment
it is paired with (the other services may answer differently every time). -/
def run (self : DataMovementManager) : List (Environment × Operation) → DataMovementManager
  | [] => self
  | (env, op) :: rest => (self.step env op).run rest

end DataMovementManager

/-- An environment in which every call to another service succeeds and every workflow's
callback mailbox is "wms". -/
def quietEnvironment : Environment where
  initiateFileCopy := fun _ _ _ _ _ _ => none
  copyFile := fun _ _ _ => none
  addEntry := fun _ _ _ => none
  dputMessage := fun _ _ => false
  getCallbackMailbox := fun _ => "wms"

/-- An environment like `quietEnvironment`, except that every `addEntry` fails. -/
def failingRegistryEnvironment : Environment :=
  { quietEnvironment with addEntry := fun _ _ _ => some (.other 0) }

/-- The dedup invariant on a pending list: no two entries are equal under
`CopyRequestSpecs::operator==`. -/
def dedupInvariant (pending : List CopyRequestSpecs) : Prop :=
  pending.Pairwise (fun a b => a.operator_eq b = false)

instance (pending : List CopyRequestSpecs) : Decidable (dedupInvariant pending) := by
  unfold dedupInvariant; infer_instance

/-- Line 256: the request built from a completion message, with no registry. -/
def requestOfAnswer (msg : StorageServiceFileCopyAnswerMessage) : CopyRequestSpecs :=
  ⟨msg.file, msg.storage_service, msg.dst_partition, none⟩

/-- The pending request a completion message matches: the first entry of the pending
list, from its front, equal to the request built from the message; `none` when no entry
is equal to it. -/
def matchedRequest (pending : List CopyRequestSpecs)
    (msg : StorageServiceFileCopyAnswerMessage) : Option CopyRequestSpecs :=
  pending.find? (fun p => p.operator_eq (requestOfAnswer msg))

/-- The registry attached to the pending request a completion message matches, if any. -/
def matchedRegistry (pending : List CopyRequestSpecs)
    (msg : StorageServiceFileCopyAnswerMessage) : Option FileRegistryService :=
  (matchedRequest pending msg).bind (fun p => p.file_registry_service)

namespace DataMovementManager

/-- The function `DataMovementManager::main` (lines 209-224): call `processNextMessage`
until it returns false, then return 0; an exception raised by `processNextMessage` leaves
`main`. The list gives, for each successive call, the environment at that time and what
`getMessage` does. When the list is used up the daemon is still blocked in `getMessage`:
`main` has produced no result, which is `none`. -/
def main (self : DataMovementManager) : List (Environment × Received) → Option (Result Int)
  | [] => none
  | (env, received) :: rest =>
    match (self.processNextMessage env received).outcome with
    | .ok true =>
      (main (self.processNextMessage env received).manager rest).map fun r =>
        { r with calls := (self.processNextMessage env received).calls ++ r.calls }
    | .ok false =>
      some ⟨(self.processNextMessage env received).manager,
        (self.processNextMessage env received).calls, .ok 0⟩
    | .error e =>
      some ⟨(self.processNextMessage env received).manager,
        (self.processNextMessage env received).calls, .error e⟩

end DataMovementManager

/-- Does `processNextMessage` go on to the next turn of the loop after this reception
without looking at the manager: a `NetworkError` (line 239) or a
`StorageServiceFileCopyAnswerMessage` (lines 291 and 293)? -/
def Received.continues : Received → Bool
  | .NetworkError => true
  | .message (some (.StorageServiceFileCopyAnswerMessage _)) => true
  | _ => false

/-- The receptions of a run of `main`, as operations of the manager. -/
def asOperations (inputs : List (Environment × Received)) : List (Environment × Operation) :=
  inputs.map fun x => (x.1, Operation.processNextMessage x.2)

/-! ### Network connections -/

/-- Modelled from the spec: the class `NetworkConnection` is not among the sources, only
its test `InternalNetworkConnectionTest.cpp` is. A connection records the arguments of
its constructor `NetworkConnection(type, file, file_partition, mailbox, ack_mailbox)`. -/
structure NetworkConnection where
  type : Int
  file : Option WorkflowFile
  file_partition : String
  mailbox : String
  ack_mailbox : String
  deriving DecidableEq, Repr

namespace NetworkConnection

/-- Modelled from the spec: the kinds of connection the test names are `INCOMING_DATA`,
`OUTGOING_DATA` and `INCOMING_CONTROL`; they are numbered 0, 1, 2 here (the test uses
3, 4, 5 and 6 as types that are not defined). -/
def INCOMING_DATA : Int := 0

/-- Modelled from the spec: see `INCOMING_DATA`. -/
def OUTGOING_DATA : Int := 1

/-- Modelled from the spec: see `INCOMING_DATA`. -/
def INCOMING_CONTROL : Int := 2

/-- Modelled from the spec: the constructor of `NetworkConnection`. The spec (sections 3
and 4.2) says that construction validates the invariants and fails with InvalidArgument
at once: the kind is one of the defined kinds, a DATA connection references a non-null
file, a CONTROL connection references no file, an OUTGOING connection carries no
acknowledgement mailbox, and a destination mailbox name is required. Where the spec is
silent the assertions of the test decide (lines 60-85): an empty mailbox name fails for
every kind, and `INCOMING_CONTROL` with an acknowledgement mailbox fails too. -/
def new (type : Int) (file : Option WorkflowFile) (file_partition mailbox ack_mailbox : String) :
    Except Exception NetworkConnection :=
  if type ≠ INCOMING_DATA ∧ type ≠ OUTGOING_DATA ∧ type ≠ INCOMING_CONTROL then
    .error .invalid_argument
  else if mailbox = "" then
    .error .invalid_argument
  else if (type = INCOMING_DATA ∨ type = OUTGOING_DATA) ∧ file = none then
    .error .invalid_argument
  else if type = INCOMING_CONTROL ∧ file ≠ none then
    .error .invalid_argument
  else if (type = OUTGOING_DATA ∨ type = INCOMING_CONTROL) ∧ ack_mailbox ≠ "" then
    .error .invalid_argument
  else
    .ok ⟨type, file, file_partition, mailbox, ack_mailbox⟩

/-- Modelled from the spec: `NetworkConnection::getMessage`, the spec's `awaitCompletion`.
On an OUTGOING connection it fails with a usage error, `std::runtime_error` in the test
(line 88); otherwise it waits until the transfer resolves and returns what arrived
(`arrived`, `none` when the transfer failed). -/
def getMessage (self : NetworkConnection) (arrived : Option SimulationMessage) :
    Except Exception (Option SimulationMessage) :=
  if self.type = OUTGOING_DATA then .error .runtime_error else .ok arrived

end NetworkConnection

/-! ### Virtualized cluster and cloud services -/

/-- Modelled from the spec: the platform, as far as the services read it: the hosts with
their numbers of cores (`queryHostCores` of section 6). -/
abbrev Platform := List (String × Nat)

/-- Modelled from the spec: a VM (section 3) with its identity, the host it is placed on,
the cores it was given and the cores of it that no job uses. -/
structure VirtualMachine where
  id : Nat
  pm_hostname : String
  num_cores : Nat
  idle_cores : Nat
  deriving DecidableEq, Repr

/-- Modelled from the spec: the state of a `VirtualizedClusterService`, whose code is not
among the sources (`CloudService.h` declares the constructor of its subclass only): the
constructor's arguments and the VMs created so far, oldest first. -/
structure VirtualizedClusterService where
  hostname : String
  execution_hosts : List String
  scratch_space_size : Nat
  property_list : List (String × String)
  vms : List VirtualMachine
  deriving DecidableEq, Repr

/-- The class `CloudService` of `CloudService.h` (line 29): a `VirtualizedClusterService`
with no state of its own. -/
abbrev CloudService := VirtualizedClusterService

/-- Errors of the VM operations of section 4.3 of the spec. -/
inductive ServiceError where
  | InvalidArgument
  | ResourceError
  deriving DecidableEq, Repr

namespace VirtualizedClusterService

/-- Modelled from the spec: the constructor `VirtualizedClusterService(hostname,
execution_hosts, scratch_space_size, property_list)`. Section 7 of the spec lists the
empty host list at construction among the argument errors, detected synchronously; the
test expects `std::invalid_argument` (lines 316-320). A new service has no VM. -/
def new (hostname : String) (execution_hosts : List String) (scratch_space_size : Nat)
    (property_list : List (String × String)) : Except Exception VirtualizedClusterService :=
  if execution_hosts.isEmpty then .error .invalid_argument
  else .ok ⟨hostname, execution_hosts, scratch_space_size, property_list, []⟩

/-- Modelled from the spec: `getExecutionHosts()`, the ordered sequence of hostnames. -/
def getExecutionHosts (self : VirtualizedClusterService) : List String :=
  self.execution_hosts

/-- Modelled from the spec: `getNumCores()`, a sequence aligned with the execution hosts
that reflects the VM-level allocation: for each host the cores of the VMs placed on it. -/
def getNumCores (self : VirtualizedClusterService) : List Nat :=
  self.execution_hosts.map fun host =>
    ((self.vms.filter fun vm => vm.pm_hostname = host).map fun vm => vm.num_cores).sum

/-- Modelled from the spec: `getNumIdleCores()`, aligned with the execution hosts: for
each host the idle cores of the VMs placed on it. -/
def getNumIdleCores (self : VirtualizedClusterService) : List Nat :=
  self.execution_hosts.map fun host =>
    ((self.vms.filter fun vm => vm.pm_hostname = host).map fun vm => vm.idle_cores).sum

/-- Modelled from the spec: `createVM(hostname, numCores, diskSize)`. `numCores = 0`
means all the cores of the host. It fails when the host is not an execution host of the
service or not a host of the platform (InvalidArgument), and with ResourceError when the
host has fewer cores than asked. The test (lines 517-536) creates a VM with all 4 cores
and then a VM with 2 cores on the same 4-core host, so cores given to other VMs do not
make `createVM` fail. On success the new VM, all its cores idle, is added and its id is
returned. -/
def createVM (self : VirtualizedClusterService) (platform : Platform) (pm_hostname : String)
    (num_cores : Nat) (_disk_size : Nat) :
    Except ServiceError (Nat × VirtualizedClusterService) :=
  if pm_hostname ∉ self.execution_hosts then .error .InvalidArgument
  else
    match platform.lookup pm_hostname with
    | none => .error .InvalidArgument
    | some host_cores =>
      let cores := if num_cores = 0 then host_cores else num_cores
      if host_cores < cores then .error .ResourceError
      else
        .ok (self.vms.length,
          { self with vms := self.vms ++ [⟨self.vms.length, pm_hostname, cores, cores⟩] })

end VirtualizedClusterService

/-- The constructor `CloudService(hostname, execution_hosts, scratch_space_size,
property_list)` of `CloudService.h` (lines 51-56): that of its base class. -/
def CloudService.new (hostname : String) (execution_hosts : List String)
    (scratch_space_size : Nat) (property_list : List (String × String)) :
    Except Exception CloudService :=
  VirtualizedClusterService.new hostname execution_hosts scratch_space_size property_list

/-- The platform of `VirtualizedClusterServiceTest.cpp` (lines 82-90). -/
def testPlatform : Platform := [("DualCoreHost", 2), ("QuadCoreHost", 4)]

/-- Is this operation the processing of a completion message for the key
(file, dst, partition)? -/
def Operation.completes (file : WorkflowFile) (dst : StorageService) (partition : String) :
    Operation → Bool
  | .processNextMessage (.message (some (.StorageServiceFileCopyAnswerMessage msg))) =>
    decide (msg.file = file ∧ msg.storage_service = dst ∧ msg.dst_partition = partition)
  | _ => false

/-- An environment like `quietEnvironment`, except that every `initiateFileCopy` fails. -/
def failingStorageEnvironment : Environment :=
  { quietEnvironment with initiateFileCopy := fun _ _ _ _ _ _ => some (.other 1) }

/-- An environment like `quietEnvironment`, except that every `dputMessage` fails with a
`NetworkError`. -/
def failingMailboxEnvironment : Environment :=
  { quietEnvironment with dputMessage := fun _ _ => true }

/-! ### The daemon actor -/

/-- What `S4U_DaemonActor::operator()` does to its daemon, in order. -/
inductive DaemonAction where
  | main
  | setTerminated
  deriving DecidableEq, Repr

/-- What a call of `S4U_DaemonActor::operator()` leaves behind: the daemon's terminated
flag, what was done to the daemon, and the outcome: `none` while `main()` has not
returned, else a normal return or the exception that leaves the operator. -/
structure DaemonActorRun where
  terminated : Bool
  actions : List DaemonAction
  outcome : Option (Except Exception Unit)
  deriving Repr

/-- The function `S4U_DaemonActor::operator()` of `S4U_DaemonActor.h` (lines 50-58):
call `this->daemon->main()`; an exception is re-thrown by the `catch` clause (line 55);
after a normal return call `this->daemon->setTerminated()`. `terminated` is the daemon's
flag before the call and `main` is what the daemon's `main()` does: `none` when it does
not return, else the value it returns or the exception it raises. The class `S4U_Daemon`
is not among the sources; its `setTerminated()` is taken to set the terminated flag. -/
def S4U_DaemonActor.operator_call (terminated : Bool) (main : Option (Except Exception Int)) :
    DaemonActorRun :=
  match main with
  | none => ⟨terminated, [.main], none⟩
  | some (.error e) => ⟨terminated, [.main], some (.error e)⟩
  | some (.ok _) => ⟨true, [.main, .setTerminated], some (.ok ())⟩

/-- The actor of a `DataMovementManager` daemon: `operator()` with the manager's `main`
run on the given receptions. -/
def S4U_DaemonActor.runDataMovementManager (terminated : Bool) (manager : DataMovementManager)
    (inputs : List (Environment × Received)) : DaemonActorRun :=
  S4U_DaemonActor.operator_call terminated ((manager.main inputs).map fun r => r.outcome)

/-! ### Statement-by-statement execution of `initiateAsynchronousFileCopy` -/

/-- The local variables of `initiateAsynchronousFileCopy` when line 116 is reached: the
three pointers are not null (line 106) and the partitions are normalized (lines
109-114). -/
structure InitiateLocals where
  file : WorkflowFile
  src : StorageService
  src_partition : String
  dst : StorageService
  dst_partition : String
  file_registry_service : Option FileRegistryService
  deriving DecidableEq, Repr

/-- The statements of lines 118-134 of `initiateAsynchronousFileCopy`: the scan of the
pending list (lines 119-123), `pending_file_copies.push_front` (line 130) and
`dst->initiateFileCopy` (line 131). -/
inductive Statement where
  | scan
  | push_front
  | initiateFileCopy
  deriving DecidableEq, Repr

/-- Where an execution stands: the manager and the calls made to other services so far. -/
structure Execution where
  manager : DataMovementManager
  calls : List Call
  deriving DecidableEq, Repr

/-- One statement, run in a given state: the state after it and the exception it throws,
if any. The scan throws `FileAlreadyBeingCopied` when an equal request is pending and
touches nothing; `push_front` puts the request at the front of the pending list;
`initiateFileCopy` is the call to the storage service, recorded as made, which throws
what the service raises. Only `initiateFileCopy` calls another service. -/
def Statement.exec (env : Environment) (l : InitiateLocals) (x : Execution) :
    Statement → Execution × Option Exception
  | .scan =>
    if isPending x.manager.pending_file_copies
        ⟨l.file, l.dst, l.dst_partition, l.file_registry_service⟩ then
      (x, some (.WorkflowExecutionException
        (.FileAlreadyBeingCopied l.file l.dst l.dst_partition)))
    else (x, none)
  | .push_front =>
    ({ x with
        manager := { x.manager with
          pending_file_copies :=
            ⟨l.file, l.dst, l.dst_partition, l.file_registry_service⟩ ::
              x.manager.pending_file_copies } }, none)
  | .initiateFileCopy =>
    ({ x with
        calls := x.calls ++
          [.initiateFileCopy l.dst x.manager.mailbox_name l.file l.src l.src_partition
            l.dst_partition] },
      (env.initiateFileCopy l.dst x.manager.mailbox_name l.file l.src l.src_partition
        l.dst_partition).map fun cause => .WorkflowExecutionException cause)

/-- What running a sequence of statements gives: the state at the end, the outcome, and
the log: every statement that was run, in order, with the state in which it started. -/
structure StatementRun where
  final : Execution
  outcome : Except Exception Unit
  log : List (Statement × Execution)

/-- Run statements one after the other. A statement that throws ends the run: the
statements after it are not run (the `catch` clauses of lines 124-126 and 132-134 only
re-throw). -/
def runStatements (env : Environment) (l : InitiateLocals) :
    Execution → List Statement → StatementRun
  | x, [] => ⟨x, .ok (), []⟩
  | x, s :: rest =>
    match s.exec env l x with
    | (x1, some e) => ⟨x1, .error e, [(s, x)]⟩
    | (x1, none) =>
      ⟨(runStatements env l x1 rest).final, (runStatements env l x1 rest).outcome,
        (s, x) :: (runStatements env l x1 rest).log⟩

/-- The result of a run, as the manager's operations give it. -/
def StatementRun.result (r : StatementRun) : Result Unit :=
  ⟨r.final.manager, r.final.calls, r.outcome⟩

namespace DataMovementManager

/-- Lines 118-134 of `initiateAsynchronousFileCopy` in the order of the source: scan,
`push_front`, `initiateFileCopy`. -/
def initiateAsynchronousFileCopyBody : List Statement :=
  [.scan, .push_front, .initiateFileCopy]

/-- The function `initiateAsynchronousFileCopy` (lines 100-135) run statement by
statement: the null test of line 106, the normalization of lines 109-114, then the
statements of the body. -/
def initiateAsynchronousFileCopySteps (self : DataMovementManager) (env : Environment)
    (file : Option WorkflowFile) (src : Option StorageService) (src_partition : String)
    (dst : Option StorageService) (dst_partition : String)
    (file_registry_service : Option FileRegistryService) : StatementRun :=
  match file, src, dst with
  | some file, some src, some dst =>
    runStatements env
      ⟨file, src, normalizePartition src_partition, dst, normalizePartition dst_partition,
        file_registry_service⟩
      ⟨self, []⟩ initiateAsynchronousFileCopyBody
  | _, _, _ => ⟨⟨self, []⟩, .error .invalid_argument, []⟩

end DataMovementManager

/-! ## Auxiliary facts -/

theorem operator_eq_iff (p q : CopyRequestSpecs) :
    p.operator_eq q = true ↔
      p.file = q.file ∧ p.dst = q.dst ∧ p.dst_partition = q.dst_partition := by
  simp [CopyRequestSpecs.operator_eq, and_assoc]

theorem operator_eq_comm (p q : CopyRequestSpecs) : p.operator_eq q = q.operator_eq p := by
  rw [Bool.eq_iff_iff, operator_eq_iff, operator_eq_iff]
  constructor <;> rintro ⟨h1, h2, h3⟩ <;> exact ⟨h1.symm, h2.symm, h3.symm⟩

theorem isPending_iff (pending : List CopyRequestSpecs) (request : CopyRequestSpecs) :
    isPending pending request = true ↔
      ∃ p ∈ pending, p.file = request.file ∧ p.dst = request.dst ∧
        p.dst_partition = request.dst_partition := by
  simp [isPending, List.any_eq_true, operator_eq_iff]

theorem isPending_registry (pending : List CopyRequestSpecs) (file : WorkflowFile)
    (dst : StorageService) (partition : String) (r1 r2 : Option FileRegistryService) :
    isPending pending ⟨file, dst, partition, r1⟩ = isPending pending ⟨file, dst, partition, r2⟩ := by
  rw [Bool.eq_iff_iff, isPending_iff, isPending_iff]

theorem normalizePartition_idem (partition : String) :
    normalizePartition (normalizePartition partition) = normalizePartition partition := by
  by_cases h : partition = ""
  · subst h; decide
  · simp [normalizePartition, h]

/-! ## Claims -/

/-- C1: for non-null file, src and dst (and a storage service that does not itself raise
`FileAlreadyBeingCopied`), `initiateAsynchronousFileCopy` fails with a
`WorkflowExecutionException` whose cause is `FileAlreadyBeingCopied` exactly when the
pending list already holds a request equal on (file, dst, normalized dst_partition); in
that case the cause names that key, the manager is left unchanged and no call is made to
the storage service. -/
theorem C1_duplicate_request_fails (self : DataMovementManager) (env : Environment)
    (file : WorkflowFile) (src : StorageService) (src_partition : String)
    (dst : StorageService) (dst_partition : String)
    (file_registry_service : Option FileRegistryService)
    (hstorage : ∀ f d p, env.initiateFileCopy dst self.mailbox_name file src
        (normalizePartition src_partition) (normalizePartition dst_partition)
          ≠ some (.FileAlreadyBeingCopied f d p)) :
    ((∃ f d p, (self.initiateAsynchronousFileCopy env (some file) (some src) src_partition
          (some dst) dst_partition file_registry_service).outcome
          = .error (.WorkflowExecutionException (.FileAlreadyBeingCopied f d p))) ↔
      ∃ q ∈ self.pending_file_copies,
        q.file = file ∧ q.dst = dst ∧ q.dst_partition = normalizePartition dst_partition) ∧
    ((∃ q ∈ self.pending_file_copies,
        q.file = file ∧ q.dst = dst ∧ q.dst_partition = normalizePartition dst_partition) →
      self.initiateAsynchronousFileCopy env (some file) (some src) src_partition
          (some dst) dst_partition file_registry_service
        = ⟨self, [], .error (.WorkflowExecutionException
            (.FileAlreadyBeingCopied file dst (normalizePartition dst_partition)))⟩) := by
  have key : isPending self.pending_file_copies
      ⟨file, dst, normalizePartition dst_partition, file_registry_service⟩ = true ↔
      ∃ q ∈ self.pending_file_copies,
        q.file = file ∧ q.dst = dst ∧ q.dst_partition = normalizePartition dst_partition :=
    isPending_iff _ _
  by_cases hp : isPending self.pending_file_copies
      ⟨file, dst, normalizePartition dst_partition, file_registry_service⟩ = true
  · have hq := key.mp hp
    refine ⟨⟨fun _ => hq, fun _ => ⟨file, dst, normalizePartition dst_partition, ?_⟩⟩, fun _ => ?_⟩
    · simp [DataMovementManager.initiateAsynchronousFileCopy, hp]
    · simp [DataMovementManager.initiateAsynchronousFileCopy, hp]
  · have hq := fun h => hp (key.mpr h)
    refine ⟨⟨?_, fun h => absurd h hq⟩, fun h => absurd h hq⟩
    rintro ⟨f, d, p, hout⟩
    exfalso
    simp only [DataMovementManager.initiateAsynchronousFileCopy, hp] at hout
    cases henv : env.initiateFileCopy dst self.mailbox_name file src
        (normalizePartition src_partition) (normalizePartition dst_partition) with
    | none => simp [henv] at hout
    | some cause =>
      simp only [henv] at hout
      have hc : cause = .FileAlreadyBeingCopied f d p := by
        simpa using hout
      exact hstorage f d p (by rw [henv, hc])

/-- Witness of C1: with the request (1, 3, "/") pending, a second request for file 1 to
service 3 with an empty destination partition fails as a duplicate. -/
theorem C1_duplicate_request_fails_witness :
    ((∃ f d p, (DataMovementManager.initiateAsynchronousFileCopy ⟨"dmm", [⟨1, 3, "/", some 7⟩]⟩
          quietEnvironment (some 1) (some 2) "" (some 3) "" none).outcome
          = .error (.WorkflowExecutionException (.FileAlreadyBeingCopied f d p))) ↔
      ∃ q ∈ [(⟨1, 3, "/", some 7⟩ : CopyRequestSpecs)],
        q.file = 1 ∧ q.dst = 3 ∧ q.dst_partition = normalizePartition "") ∧
    ((∃ q ∈ [(⟨1, 3, "/", some 7⟩ : CopyRequestSpecs)],
        q.file = 1 ∧ q.dst = 3 ∧ q.dst_partition = normalizePartition "") →
      DataMovementManager.initiateAsynchronousFileCopy ⟨"dmm", [⟨1, 3, "/", some 7⟩]⟩
          quietEnvironment (some 1) (some 2) "" (some 3) "" none
        = ⟨⟨"dmm", [⟨1, 3, "/", some 7⟩]⟩, [], .error (.WorkflowExecutionException
            (.FileAlreadyBeingCopied 1 3 (normalizePartition "")))⟩) :=
  C1_duplicate_request_fails ⟨"dmm", [⟨1, 3, "/", some 7⟩]⟩ quietEnvironment 1 2 "" 3 "" none
    (by intro f d p; simp [quietEnvironment])

theorem findAndErase_snd_sublist (request : CopyRequestSpecs) (pending : List CopyRequestSpecs) :
    List.Sublist (DataMovementManager.findAndErase request pending).2 pending := by
  induction pending with
  | nil => simp [DataMovementManager.findAndErase]
  | cons p rest ih =>
    unfold DataMovementManager.findAndErase
    by_cases h : p.operator_eq request = true
    · simp [h]
    · simp [h, ih]

theorem dedupInvariant_cons (request : CopyRequestSpecs) (pending : List CopyRequestSpecs)
    (hnew : isPending pending request = false) (h : dedupInvariant pending) :
    dedupInvariant (request :: pending) := by
  unfold dedupInvariant at *
  refine List.pairwise_cons.mpr ⟨fun q hq => ?_, h⟩
  rw [operator_eq_comm]
  by_contra hne
  have : isPending pending request = true := by
    unfold isPending
    exact List.any_eq_true.mpr ⟨q, hq, by simpa using hne⟩
  rw [hnew] at this
  exact Bool.false_ne_true this

theorem dedupInvariant_step (self : DataMovementManager) (env : Environment) (op : Operation)
    (h : dedupInvariant self.pending_file_copies) :
    dedupInvariant (self.step env op).pending_file_copies := by
  cases op with
  | initiateAsynchronousFileCopy file src sp dst dp frs =>
    simp only [DataMovementManager.step, DataMovementManager.initiateAsynchronousFileCopy]
    rcases file with _ | file <;> rcases src with _ | src <;> rcases dst with _ | dst <;>
      try exact h
    by_cases hp : isPending self.pending_file_copies ⟨file, dst, normalizePartition dp, frs⟩ = true
    · simpa [hp] using h
    · simp only [hp]
      have hcons := dedupInvariant_cons ⟨file, dst, normalizePartition dp, frs⟩ _
        (by simpa using hp) h
      cases env.initiateFileCopy dst self.mailbox_name file src (normalizePartition sp)
        (normalizePartition dp) <;> simpa using hcons
  | doSynchronousFileCopy file src sp dst dp frs =>
    simp only [DataMovementManager.step, DataMovementManager.doSynchronousFileCopy]
    rcases file with _ | file <;> rcases src with _ | src <;> rcases dst with _ | dst <;>
      try exact h
    by_cases hp : isPending self.pending_file_copies ⟨file, dst, normalizePartition dp, frs⟩ = true
    · simpa [hp] using h
    · simp only [hp]
      cases env.copyFile dst file src with
      | some cause => simpa using h
      | none =>
        cases frs with
        | none => simpa using h
        | some r => cases hae : env.addEntry r file dst <;> simpa [hae] using h
  | processNextMessage received =>
    simp only [DataMovementManager.step]
    rcases received with _ | _ | _ | msg | name
    · exact h
    · exact h
    · exact h
    · simp only [DataMovementManager.processNextMessage]
      have hsub := List.Pairwise.sublist
        (findAndErase_snd_sublist ⟨msg.file, msg.storage_service, msg.dst_partition, none⟩
          self.pending_file_copies) h
      split <;> exact hsub
    · exact h

theorem dedupInvariant_run (ops : List (Environment × Operation)) (self : DataMovementManager)
    (h : dedupInvariant self.pending_file_copies) :
    dedupInvariant (self.run ops).pending_file_copies := by
  induction ops generalizing self with
  | nil => exact h
  | cons eo rest ih =>
    obtain ⟨env, op⟩ := eo
    exact ih _ (dedupInvariant_step self env op h)

theorem dedupInvariant_countP (pending : List CopyRequestSpecs) (h : dedupInvariant pending)
    (file : WorkflowFile) (dst : StorageService) (partition : String) :
    pending.countP (fun p => decide (p.file = file ∧ p.dst = dst ∧ p.dst_partition = partition))
      ≤ 1 := by
  induction pending with
  | nil => simp
  | cons p rest ih =>
    unfold dedupInvariant at h ih
    obtain ⟨hp, hrest⟩ := List.pairwise_cons.mp h
    by_cases hk : p.file = file ∧ p.dst = dst ∧ p.dst_partition = partition
    · have hzero : rest.countP
          (fun p => decide (p.file = file ∧ p.dst = dst ∧ p.dst_partition = partition)) = 0 := by
        rw [List.countP_eq_zero]
        intro q hq hqk
        have hqk2 : q.file = file ∧ q.dst = dst ∧ q.dst_partition = partition := by
          simpa using hqk
        have := hp q hq
        have ht : p.operator_eq q = true :=
          (operator_eq_iff p q).mpr ⟨hk.1.trans hqk2.1.symm, hk.2.1.trans hqk2.2.1.symm,
            hk.2.2.trans hqk2.2.2.symm⟩
        rw [this] at ht
        exact Bool.false_ne_true ht
      rw [List.countP_cons_of_pos _ _ (by simpa using hk), hzero]
    · rw [List.countP_cons_of_neg _ _ (by simpa using hk)]
      exact ih hrest

/-- C2 (dedup invariant): in every state reached from an empty pending list by any
sequence of `initiateAsynchronousFileCopy`, `doSynchronousFileCopy` and
`processNextMessage` calls, with any arguments, any answers of the other services and
whether the calls return or raise, the pending list holds at most one request for each
(file, destination service, destination partition). -/
theorem C2_dedup_invariant (mailbox_name : String) (ops : List (Environment × Operation))
    (file : WorkflowFile) (dst : StorageService) (partition : String) :
    (DataMovementManager.run ⟨mailbox_name, []⟩ ops).pending_file_copies.countP
      (fun p => decide (p.file = file ∧ p.dst = dst ∧ p.dst_partition = partition)) ≤ 1 :=
  dedupInvariant_countP _
    (dedupInvariant_run ops ⟨mailbox_name, []⟩ (by simp [dedupInvariant])) file dst partition

theorem normalizePartition_empty : normalizePartition "" = "/" := by decide

theorem normalizePartition_root : normalizePartition "/" = "/" := by decide

theorem initiate_of_pending (self : DataMovementManager) (env : Environment)
    (file : WorkflowFile) (src : StorageService) (sp : String) (dst : StorageService)
    (dp : String) (frs : Option FileRegistryService)
    (h : isPending self.pending_file_copies ⟨file, dst, normalizePartition dp, frs⟩ = true) :
    self.initiateAsynchronousFileCopy env (some file) (some src) sp (some dst) dp frs
      = ⟨self, [], .error (.WorkflowExecutionException
          (.FileAlreadyBeingCopied file dst (normalizePartition dp)))⟩ := by
  simp [DataMovementManager.initiateAsynchronousFileCopy, h]

theorem initiate_of_not_pending (self : DataMovementManager) (env : Environment)
    (file : WorkflowFile) (src : StorageService) (sp : String) (dst : StorageService)
    (dp : String) (frs : Option FileRegistryService)
    (h : isPending self.pending_file_copies ⟨file, dst, normalizePartition dp, frs⟩ = false) :
    self.initiateAsynchronousFileCopy env (some file) (some src) sp (some dst) dp frs
      = ⟨{ self with pending_file_copies :=
              ⟨file, dst, normalizePartition dp, frs⟩ :: self.pending_file_copies },
          [.initiateFileCopy dst self.mailbox_name file src (normalizePartition sp)
            (normalizePartition dp)],
          match env.initiateFileCopy dst self.mailbox_name file src (normalizePartition sp)
            (normalizePartition dp) with
          | none => .ok ()
          | some cause => .error (.WorkflowExecutionException cause)⟩ := by
  simp only [DataMovementManager.initiateAsynchronousFileCopy, h]
  cases env.initiateFileCopy dst self.mailbox_name file src (normalizePartition sp)
    (normalizePartition dp) <;> simp

theorem isPending_after_initiate (self : DataMovementManager) (env : Environment)
    (file : WorkflowFile) (src : StorageService) (sp : String) (dst : StorageService)
    (dp : String) (r1 r2 : Option FileRegistryService) :
    isPending (self.initiateAsynchronousFileCopy env (some file) (some src) sp (some dst) dp
      r1).manager.pending_file_copies ⟨file, dst, normalizePartition dp, r2⟩ = true := by
  cases h : isPending self.pending_file_copies ⟨file, dst, normalizePartition dp, r1⟩ with
  | true =>
    rw [initiate_of_pending self env file src sp dst dp r1 h]
    rw [isPending_registry _ _ _ _ r2 r1]
    exact h
  | false =>
    rw [initiate_of_not_pending self env file src sp dst dp r1 h]
    simp [isPending, CopyRequestSpecs.operator_eq]

theorem pending_after_initiate (self : DataMovementManager) (env : Environment)
    (file : WorkflowFile) (src : StorageService) (sp : String) (dst : StorageService)
    (dp : String) (frs : Option FileRegistryService) :
    (self.initiateAsynchronousFileCopy env (some file) (some src) sp (some dst) dp
        frs).manager.pending_file_copies = self.pending_file_copies ∨
    (self.initiateAsynchronousFileCopy env (some file) (some src) sp (some dst) dp
        frs).manager.pending_file_copies
      = ⟨file, dst, normalizePartition dp, frs⟩ :: self.pending_file_copies := by
  cases h : isPending self.pending_file_copies ⟨file, dst, normalizePartition dp, frs⟩ with
  | true => left; rw [initiate_of_pending self env file src sp dst dp frs h]
  | false => right; rw [initiate_of_not_pending self env file src sp dst dp frs h]

/-- C3: the file-registry reference is not part of a request's identity. Whatever the
registries `r1` and `r2` (null included), once `initiateAsynchronousFileCopy(file, src1,
sp1, dst, dp, r1)` has been called, `initiateAsynchronousFileCopy(file, src2, sp2, dst,
dp, r2)` fails as a duplicate, leaving the manager unchanged and calling no service;
whereas a request `(file2, dst2, dp2)` that differs in file, in dst or in normalized
destination partition, and that was not pending before, is not treated as a duplicate:
it is recorded at the front of the pending list and handed to `dst2`. -/
theorem C3_registry_not_part_of_identity (self : DataMovementManager) (env1 env2 : Environment)
    (file : WorkflowFile) (src1 : StorageService) (sp1 : String) (dst : StorageService)
    (dp : String) (r1 : Option FileRegistryService)
    (src2 : StorageService) (sp2 : String) (r2 : Option FileRegistryService)
    (file2 : WorkflowFile) (dst2 : StorageService) (dp2 : String) :
    (self.initiateAsynchronousFileCopy env1 (some file) (some src1) sp1 (some dst) dp
        r1).manager.initiateAsynchronousFileCopy env2 (some file) (some src2) sp2 (some dst) dp r2
      = ⟨(self.initiateAsynchronousFileCopy env1 (some file) (some src1) sp1 (some dst) dp
            r1).manager, [],
          .error (.WorkflowExecutionException
            (.FileAlreadyBeingCopied file dst (normalizePartition dp)))⟩ ∧
    ((file2 ≠ file ∨ dst2 ≠ dst ∨ normalizePartition dp2 ≠ normalizePartition dp) →
      isPending self.pending_file_copies ⟨file2, dst2, normalizePartition dp2, r2⟩ = false →
      ((self.initiateAsynchronousFileCopy env1 (some file) (some src1) sp1 (some dst) dp
          r1).manager.initiateAsynchronousFileCopy env2 (some file2) (some src2) sp2 (some dst2)
          dp2 r2).manager.pending_file_copies
        = ⟨file2, dst2, normalizePartition dp2, r2⟩ ::
            (self.initiateAsynchronousFileCopy env1 (some file) (some src1) sp1 (some dst) dp
              r1).manager.pending_file_copies ∧
      ((self.initiateAsynchronousFileCopy env1 (some file) (some src1) sp1 (some dst) dp
          r1).manager.initiateAsynchronousFileCopy env2 (some file2) (some src2) sp2 (some dst2)
          dp2 r2).calls
        = [.initiateFileCopy dst2
            (self.initiateAsynchronousFileCopy env1 (some file) (some src1) sp1 (some dst) dp
              r1).manager.mailbox_name
            file2 src2 (normalizePartition sp2) (normalizePartition dp2)]) := by
  refine ⟨initiate_of_pending _ env2 file src2 sp2 dst dp r2
    (isPending_after_initiate self env1 file src1 sp1 dst dp r1 r2), fun hdiff hfresh => ?_⟩
  have hfresh1 : isPending (self.initiateAsynchronousFileCopy env1 (some file) (some src1) sp1
      (some dst) dp r1).manager.pending_file_copies
      ⟨file2, dst2, normalizePartition dp2, r2⟩ = false := by
    rcases pending_after_initiate self env1 file src1 sp1 dst dp r1 with h | h
    · rw [h]; exact hfresh
    · rw [h]
      have hhead : CopyRequestSpecs.operator_eq ⟨file, dst, normalizePartition dp, r1⟩
          ⟨file2, dst2, normalizePartition dp2, r2⟩ = false := by
        rw [Bool.eq_false_iff]
        intro heq
        obtain ⟨h1, h2, h3⟩ := (operator_eq_iff _ _).mp heq
        rcases hdiff with hd | hd | hd
        · exact hd h1.symm
        · exact hd h2.symm
        · exact hd h3.symm
      unfold isPending at hfresh ⊢
      rw [List.any_cons, hhead, hfresh]
      rfl
  rw [initiate_of_not_pending _ env2 file2 src2 sp2 dst2 dp2 r2 hfresh1]
  exact ⟨rfl, rfl⟩

/-- Witness of C3 on an empty pending list: after a request for (1, 3, "/") with
registry 7, the same key with no registry is a duplicate, while file 4 to the same
service is recorded. -/
theorem C3_registry_not_part_of_identity_witness :
    ((DataMovementManager.initiateAsynchronousFileCopy ⟨"dmm", []⟩ quietEnvironment
        (some 1) (some 2) "/" (some 3) "/" (some 7)).manager.initiateAsynchronousFileCopy
        quietEnvironment (some 1) (some 5) "/x" (some 3) "/" none).outcome
      = .error (.WorkflowExecutionException (.FileAlreadyBeingCopied 1 3 "/")) ∧
    ((DataMovementManager.initiateAsynchronousFileCopy ⟨"dmm", []⟩ quietEnvironment
        (some 1) (some 2) "/" (some 3) "/" (some 7)).manager.initiateAsynchronousFileCopy
        quietEnvironment (some 4) (some 5) "/x" (some 3) "/" none).manager.pending_file_copies
      = [⟨4, 3, "/", none⟩, ⟨1, 3, "/", some 7⟩] := by
  have h := C3_registry_not_part_of_identity ⟨"dmm", []⟩ quietEnvironment quietEnvironment
    1 2 "/" 3 "/" (some 7) 5 "/x" none 4 3 "/"
  refine ⟨?_, ?_⟩
  · rw [h.1]; rfl
  · rw [(h.2 (Or.inl (by decide)) (by decide)).1]; rfl

/-- C4: `initiateAsynchronousFileCopy` fails with `std::invalid_argument` whenever file,
src or dst is null, for every partition, registry and pending list (so also when the key
is pending); the manager is unchanged and no call is made to another service. -/
theorem C4_null_argument_is_invalid (self : DataMovementManager) (env : Environment)
    (file : Option WorkflowFile) (src : Option StorageService) (src_partition : String)
    (dst : Option StorageService) (dst_partition : String)
    (file_registry_service : Option FileRegistryService)
    (hnull : file = none ∨ src = none ∨ dst = none) :
    self.initiateAsynchronousFileCopy env file src src_partition dst dst_partition
        file_registry_service
      = ⟨self, [], .error .invalid_argument⟩ := by
  rcases file with _ | file <;> rcases src with _ | src <;> rcases dst with _ | dst <;>
    first
    | rfl
    | (exfalso; simp at hnull)

/-- Witness of C4: a null source with the key (1, 3, "/") already pending gives
`invalid_argument`, not the duplicate failure. -/
theorem C4_null_argument_is_invalid_witness :
    ((some 1 : Option WorkflowFile) = none ∨ (none : Option StorageService) = none ∨
        (some 3 : Option StorageService) = none) ∧
    DataMovementManager.initiateAsynchronousFileCopy ⟨"dmm", [⟨1, 3, "/", none⟩]⟩
        quietEnvironment (some 1) none "/" (some 3) "/" none
      = ⟨⟨"dmm", [⟨1, 3, "/", none⟩]⟩, [], .error .invalid_argument⟩ :=
  ⟨Or.inr (Or.inl rfl),
    C4_null_argument_is_invalid ⟨"dmm", [⟨1, 3, "/", none⟩]⟩ quietEnvironment (some 1) none "/"
      (some 3) "/" none (Or.inr (Or.inl rfl))⟩

/-- C5 (success postcondition): for non-null file, src and dst, no equal request pending
and a storage service whose `initiateFileCopy` does not fail, the call returns normally,
the pending list is the previous list with the one new request (file, dst, normalized
dst_partition, the caller's registry) pushed at its front, the mailbox name is unchanged,
and `dst->initiateFileCopy` is the only call made: once, with the manager's mailbox name,
file, src and the normalized source and destination partitions. -/
theorem C5_success_postcondition (self : DataMovementManager) (env : Environment)
    (file : WorkflowFile) (src : StorageService) (src_partition : String)
    (dst : StorageService) (dst_partition : String)
    (file_registry_service : Option FileRegistryService)
    (hfresh : ∀ q ∈ self.pending_file_copies,
      ¬ (q.file = file ∧ q.dst = dst ∧ q.dst_partition = normalizePartition dst_partition))
    (hstorage : env.initiateFileCopy dst self.mailbox_name file src
      (normalizePartition src_partition) (normalizePartition dst_partition) = none) :
    self.initiateAsynchronousFileCopy env (some file) (some src) src_partition (some dst)
        dst_partition file_registry_service
      = ⟨⟨self.mailbox_name,
            ⟨file, dst, normalizePartition dst_partition, file_registry_service⟩ ::
              self.pending_file_copies⟩,
          [.initiateFileCopy dst self.mailbox_name file src (normalizePartition src_partition)
            (normalizePartition dst_partition)],
          .ok ()⟩ := by
  have hnp : isPending self.pending_file_copies
      ⟨file, dst, normalizePartition dst_partition, file_registry_service⟩ = false := by
    rw [Bool.eq_false_iff]
    intro h
    obtain ⟨q, hq, hk⟩ := (isPending_iff _ _).mp h
    exact hfresh q hq hk
  rw [initiate_of_not_pending self env file src src_partition dst dst_partition
    file_registry_service hnp, hstorage]

/-- Witness of C5: with (9, 3, "/") pending, a request for file 1 from service 2 to
service 3 with empty partitions is recorded in front of it. -/
theorem C5_success_postcondition_witness :
    DataMovementManager.initiateAsynchronousFileCopy ⟨"dmm", [⟨9, 3, "/", none⟩]⟩
        quietEnvironment (some 1) (some 2) "" (some 3) "" (some 7)
      = ⟨⟨"dmm", [⟨1, 3, "/", some 7⟩, ⟨9, 3, "/", none⟩]⟩,
          [.initiateFileCopy 3 "dmm" 1 2 "/" "/"], .ok ()⟩ :=
  C5_success_postcondition ⟨"dmm", [⟨9, 3, "/", none⟩]⟩ quietEnvironment 1 2 "" 3 "" (some 7)
    (by decide) rfl

theorem initiate_normalized (self : DataMovementManager) (env : Environment)
    (file : Option WorkflowFile) (src : Option StorageService) (sp : String)
    (dst : Option StorageService) (dp : String) (frs : Option FileRegistryService) :
    self.initiateAsynchronousFileCopy env file src sp dst dp frs
      = self.initiateAsynchronousFileCopy env file src (normalizePartition sp) dst
          (normalizePartition dp) frs := by
  rcases file with _ | file <;> rcases src with _ | src <;> rcases dst with _ | dst <;>
    simp only [DataMovementManager.initiateAsynchronousFileCopy, normalizePartition_idem]

theorem doSynchronous_normalized (self : DataMovementManager) (env : Environment)
    (file : Option WorkflowFile) (src : Option StorageService) (sp : String)
    (dst : Option StorageService) (dp : String) (frs : Option FileRegistryService) :
    self.doSynchronousFileCopy env file src sp dst dp frs
      = self.doSynchronousFileCopy env file src (normalizePartition sp) dst
          (normalizePartition dp) frs := by
  rcases file with _ | file <;> rcases src with _ | src <;> rcases dst with _ | dst <;>
    simp only [DataMovementManager.doSynchronousFileCopy, normalizePartition_idem]

/-- C6: empty partitions are normalized to the root partition "/". For every manager
state, environment and arguments (null pointers included), `initiateAsynchronousFileCopy`
and `doSynchronousFileCopy` called with an empty source and/or destination partition give
the same result (same outcome, same manager state, same calls with the same arguments) as
when called with "/" in its place. In particular, after a request made with destination
partition "" a request for the same file and dst with "/" fails as a duplicate, and the
other way round. -/
theorem C6_empty_partition_is_root (self : DataMovementManager) (env env2 : Environment)
    (file : Option WorkflowFile) (src dst : Option StorageService) (partition : String)
    (frs r2 : Option FileRegistryService)
    (f : WorkflowFile) (s s2 d : StorageService) (sp sp2 : String) :
    (self.initiateAsynchronousFileCopy env file src "" dst partition frs
        = self.initiateAsynchronousFileCopy env file src "/" dst partition frs ∧
      self.initiateAsynchronousFileCopy env file src partition dst "" frs
        = self.initiateAsynchronousFileCopy env file src partition dst "/" frs ∧
      self.initiateAsynchronousFileCopy env file src "" dst "" frs
        = self.initiateAsynchronousFileCopy env file src "/" dst "/" frs) ∧
    (self.doSynchronousFileCopy env file src "" dst partition frs
        = self.doSynchronousFileCopy env file src "/" dst partition frs ∧
      self.doSynchronousFileCopy env file src partition dst "" frs
        = self.doSynchronousFileCopy env file src partition dst "/" frs ∧
      self.doSynchronousFileCopy env file src "" dst "" frs
        = self.doSynchronousFileCopy env file src "/" dst "/" frs) ∧
    ((self.initiateAsynchronousFileCopy env (some f) (some s) sp (some d) ""
          frs).manager.initiateAsynchronousFileCopy env2 (some f) (some s2) sp2 (some d) "/" r2
        = ⟨(self.initiateAsynchronousFileCopy env (some f) (some s) sp (some d) "" frs).manager,
            [], .error (.WorkflowExecutionException (.FileAlreadyBeingCopied f d "/"))⟩ ∧
      (self.initiateAsynchronousFileCopy env (some f) (some s) sp (some d) "/"
          frs).manager.initiateAsynchronousFileCopy env2 (some f) (some s2) sp2 (some d) "" r2
        = ⟨(self.initiateAsynchronousFileCopy env (some f) (some s) sp (some d) "/" frs).manager,
            [], .error (.WorkflowExecutionException (.FileAlreadyBeingCopied f d "/"))⟩) := by
  refine ⟨⟨?_, ?_, ?_⟩, ⟨?_, ?_, ?_⟩, ?_, ?_⟩
  · rw [initiate_normalized self env file src "", initiate_normalized self env file src "/",
      normalizePartition_empty, normalizePartition_root]
  · rw [initiate_normalized self env file src partition dst "",
      initiate_normalized self env file src partition dst "/",
      normalizePartition_empty, normalizePartition_root]
  · rw [initiate_normalized self env file src "", initiate_normalized self env file src "/",
      normalizePartition_empty, normalizePartition_root]
  · rw [doSynchronous_normalized self env file src "",
      doSynchronous_normalized self env file src "/",
      normalizePartition_empty, normalizePartition_root]
  · rw [doSynchronous_normalized self env file src partition dst "",
      doSynchronous_normalized self env file src partition dst "/",
      normalizePartition_empty, normalizePartition_root]
  · rw [doSynchronous_normalized self env file src "",
      doSynchronous_normalized self env file src "/",
      normalizePartition_empty, normalizePartition_root]
  · have h := isPending_after_initiate self env f s sp d "" frs r2
    rw [normalizePartition_empty] at h
    have h2 := initiate_of_pending _ env2 f s2 sp2 d "/" r2
      (by rw [normalizePartition_root]; exact h)
    rw [normalizePartition_root] at h2
    exact h2
  · have h := isPending_after_initiate self env f s sp d "/" frs r2
    rw [normalizePartition_root] at h
    have h2 := initiate_of_pending _ env2 f s2 sp2 d "" r2
      (by rw [normalizePartition_empty]; exact h)
    rw [normalizePartition_empty] at h2
    exact h2

theorem findAndErase_eq (request : CopyRequestSpecs) (pending : List CopyRequestSpecs) :
    DataMovementManager.findAndErase request pending
      = ({ request with
            file_registry_service :=
              match pending.find? (fun p => p.operator_eq request) with
              | some p => p.file_registry_service
              | none => request.file_registry_service },
          pending.eraseP (fun p => p.operator_eq request)) := by
  induction pending with
  | nil => simp [DataMovementManager.findAndErase]
  | cons p rest ih =>
    unfold DataMovementManager.findAndErase
    by_cases h : p.operator_eq request = true
    · simp [h, List.find?_cons, List.eraseP_cons]
    · simp [h, ih, List.find?_cons, List.eraseP_cons]

theorem processNextMessage_answer (self : DataMovementManager) (env : Environment)
    (msg : StorageServiceFileCopyAnswerMessage) :
    self.processNextMessage env (.message (some (.StorageServiceFileCopyAnswerMessage msg)))
      = ⟨⟨self.mailbox_name,
            self.pending_file_copies.eraseP (fun p => p.operator_eq (requestOfAnswer msg))⟩,
          (match matchedRegistry self.pending_file_copies msg with
            | none => []
            | some frs => [.addEntry frs msg.file msg.storage_service]) ++
            [.dputMessage (env.getCallbackMailbox msg.file)
              ⟨msg.file, msg.storage_service, msg.dst_partition,
                matchedRegistry self.pending_file_copies msg,
                (match matchedRegistry self.pending_file_copies msg with
                  | none => false
                  | some frs => (env.addEntry frs msg.file msg.storage_service).isNone),
                msg.success, msg.failure_cause⟩],
          .ok true⟩ := by
  simp only [DataMovementManager.processNextMessage, findAndErase_eq, matchedRegistry,
    matchedRequest, requestOfAnswer]
  cases hfind : self.pending_file_copies.find?
      (fun p => p.operator_eq ⟨msg.file, msg.storage_service, msg.dst_partition, none⟩) with
  | none =>
    simp only [Option.bind]
    split <;> rfl
  | some p =>
    simp only [Option.bind]
    cases hreg : p.file_registry_service with
    | none => split <;> rfl
    | some frs =>
      cases hadd : env.addEntry frs msg.file msg.storage_service with
      | none => simp only [hadd]; split <;> rfl
      | some cause => simp only [hadd]; split <;> rfl

theorem operator_eq_requestOfAnswer (msg : StorageServiceFileCopyAnswerMessage)
    (q : CopyRequestSpecs) :
    q.operator_eq (requestOfAnswer msg) = true ↔
      q.file = msg.file ∧ q.dst = msg.storage_service ∧ q.dst_partition = msg.dst_partition :=
  operator_eq_iff q (requestOfAnswer msg)

/-- C7: when `processNextMessage` receives a `StorageServiceFileCopyAnswerMessage` for
(file, storage_service, dst_partition), whatever its success flag and whatever the other
services answer: if some pending entry is equal on that key, the pending list splits as
`before ++ p :: after` with `p` the first such entry, and the pending list afterwards is
`before ++ after` (every other entry kept, in order); under the dedup invariant no entry
of `after` has the key either, so `p` is the only one. When no entry matches, the pending
list is unchanged. -/
theorem C7_completion_removes_matching_request (self : DataMovementManager) (env : Environment)
    (msg : StorageServiceFileCopyAnswerMessage) :
    ((∃ q ∈ self.pending_file_copies,
        q.file = msg.file ∧ q.dst = msg.storage_service ∧ q.dst_partition = msg.dst_partition) →
      ∃ before p after,
        self.pending_file_copies = before ++ p :: after ∧
        (p.file = msg.file ∧ p.dst = msg.storage_service ∧
          p.dst_partition = msg.dst_partition) ∧
        (∀ q ∈ before, ¬ (q.file = msg.file ∧ q.dst = msg.storage_service ∧
          q.dst_partition = msg.dst_partition)) ∧
        (dedupInvariant self.pending_file_copies →
          ∀ q ∈ after, ¬ (q.file = msg.file ∧ q.dst = msg.storage_service ∧
            q.dst_partition = msg.dst_partition)) ∧
        (self.processNextMessage env
          (.message (some (.StorageServiceFileCopyAnswerMessage msg)))).manager.pending_file_copies
          = before ++ after) ∧
    ((∀ q ∈ self.pending_file_copies,
        ¬ (q.file = msg.file ∧ q.dst = msg.storage_service ∧
          q.dst_partition = msg.dst_partition)) →
      (self.processNextMessage env
        (.message (some (.StorageServiceFileCopyAnswerMessage msg)))).manager.pending_file_copies
        = self.pending_file_copies) := by
  rw [processNextMessage_answer]
  constructor
  · rintro ⟨q, hq, hk⟩
    obtain ⟨p, before, after, hbefore, hp, hsplit, herase⟩ :=
      List.exists_of_eraseP (p := fun c => c.operator_eq (requestOfAnswer msg)) hq
        ((operator_eq_requestOfAnswer msg q).mpr hk)
    refine ⟨before, p, after, hsplit, (operator_eq_requestOfAnswer msg p).mp hp,
      fun b hb hkb => hbefore b hb ((operator_eq_requestOfAnswer msg b).mpr hkb),
      fun hinv b hb hkb => ?_, herase⟩
    unfold dedupInvariant at hinv
    rw [hsplit] at hinv
    have hpb := (List.pairwise_cons.mp (List.pairwise_append.mp hinv).2.1).1 b hb
    have hpk := (operator_eq_requestOfAnswer msg p).mp hp
    have : p.operator_eq b = true :=
      (operator_eq_iff p b).mpr ⟨hpk.1.trans hkb.1.symm, hpk.2.1.trans hkb.2.1.symm,
        hpk.2.2.trans hkb.2.2.symm⟩
    rw [hpb] at this
    exact Bool.false_ne_true this
  · intro hnone
    exact List.eraseP_of_forall_not
      (fun a ha hka => hnone a ha ((operator_eq_requestOfAnswer msg a).mp hka))

/-- Witness of C7: with pending list [(9,3,"/"), (1,3,"/"), (1,4,"/")], which satisfies
the dedup invariant, a failed completion for (1, 3, "/") removes the middle entry and
keeps the two others in order. -/
theorem C7_completion_removes_matching_request_witness :
    (dedupInvariant [⟨9, 3, "/", none⟩, ⟨1, 3, "/", some 7⟩, ⟨1, 4, "/", none⟩] ∧
      (DataMovementManager.processNextMessage
        ⟨"dmm", [⟨9, 3, "/", none⟩, ⟨1, 3, "/", some 7⟩, ⟨1, 4, "/", none⟩]⟩ quietEnvironment
        (.message (some (.StorageServiceFileCopyAnswerMessage
          ⟨1, 3, "/", none, false, false, some (.other 5)⟩)))).manager.pending_file_copies
        = [⟨9, 3, "/", none⟩, ⟨1, 4, "/", none⟩]) ∧
    ∃ before p after,
      [(⟨9, 3, "/", none⟩ : CopyRequestSpecs), ⟨1, 3, "/", some 7⟩, ⟨1, 4, "/", none⟩]
        = before ++ p :: after ∧
      (p.file = 1 ∧ p.dst = 3 ∧ p.dst_partition = "/") ∧
      (∀ q ∈ before, ¬ (q.file = 1 ∧ q.dst = 3 ∧ q.dst_partition = "/")) ∧
      (dedupInvariant [⟨9, 3, "/", none⟩, ⟨1, 3, "/", some 7⟩, ⟨1, 4, "/", none⟩] →
        ∀ q ∈ after, ¬ (q.file = 1 ∧ q.dst = 3 ∧ q.dst_partition = "/")) ∧
      (DataMovementManager.processNextMessage
        ⟨"dmm", [⟨9, 3, "/", none⟩, ⟨1, 3, "/", some 7⟩, ⟨1, 4, "/", none⟩]⟩ quietEnvironment
        (.message (some (.StorageServiceFileCopyAnswerMessage
          ⟨1, 3, "/", none, false, false, some (.other 5)⟩)))).manager.pending_file_copies
        = before ++ after :=
  ⟨⟨by decide, by decide⟩,
    (C7_completion_removes_matching_request
      ⟨"dmm", [⟨9, 3, "/", none⟩, ⟨1, 3, "/", some 7⟩, ⟨1, 4, "/", none⟩]⟩ quietEnvironment
      ⟨1, 3, "/", none, false, false, some (.other 5)⟩).1
      ⟨⟨1, 3, "/", some 7⟩, by simp, rfl, rfl, rfl⟩⟩

theorem forwardedMessages_answer (self : DataMovementManager) (env : Environment)
    (msg : StorageServiceFileCopyAnswerMessage) :
    forwardedMessages (self.processNextMessage env
        (.message (some (.StorageServiceFileCopyAnswerMessage msg)))).calls
      = [(env.getCallbackMailbox msg.file,
          ⟨msg.file, msg.storage_service, msg.dst_partition,
            matchedRegistry self.pending_file_copies msg,
            (match matchedRegistry self.pending_file_copies msg with
              | none => false
              | some frs => (env.addEntry frs msg.file msg.storage_service).isNone),
            msg.success, msg.failure_cause⟩)] := by
  rw [processNextMessage_answer]
  cases matchedRegistry self.pending_file_copies msg <;> rfl

theorem addEntryCalls_answer (self : DataMovementManager) (env : Environment)
    (msg : StorageServiceFileCopyAnswerMessage) :
    addEntryCalls (self.processNextMessage env
        (.message (some (.StorageServiceFileCopyAnswerMessage msg)))).calls
      = match matchedRegistry self.pending_file_copies msg with
        | none => []
        | some frs => [.addEntry frs msg.file msg.storage_service] := by
  rw [processNextMessage_answer]
  cases matchedRegistry self.pending_file_copies msg <;> rfl

/-- C8: for every `StorageServiceFileCopyAnswerMessage` processed by
`processNextMessage`, exactly one answer message is handed to `dputMessage`, addressed to
the callback mailbox of the workflow of the message's file; it carries the received
message's file, destination service, destination partition, success flag and failure
cause unchanged. -/
theorem C8_exactly_one_answer_forwarded (self : DataMovementManager) (env : Environment)
    (msg : StorageServiceFileCopyAnswerMessage) :
    ∃ registry updated,
      forwardedMessages (self.processNextMessage env
          (.message (some (.StorageServiceFileCopyAnswerMessage msg)))).calls
        = [(env.getCallbackMailbox msg.file,
            ⟨msg.file, msg.storage_service, msg.dst_partition, registry, updated,
              msg.success, msg.failure_cause⟩)] :=
  ⟨_, _, forwardedMessages_answer self env msg⟩

/-- C9: registry updates are best-effort in completion handling. Processing a completion
message always returns true and forwards one answer whose success flag is the received
one; the answer's `file_registry_service_updated` flag is true if and only if the matched
pending request has a registry attached and `addEntry(file, dst)` on it succeeded. When
that `addEntry` fails with a `WorkflowExecutionException`, nothing is raised: the flag is
false and `addEntry` was called once. -/
theorem C9_registry_update_best_effort (self : DataMovementManager) (env : Environment)
    (msg : StorageServiceFileCopyAnswerMessage) :
    (self.processNextMessage env
        (.message (some (.StorageServiceFileCopyAnswerMessage msg)))).outcome = .ok true ∧
    ∃ answer,
      forwardedMessages (self.processNextMessage env
          (.message (some (.StorageServiceFileCopyAnswerMessage msg)))).calls
        = [(env.getCallbackMailbox msg.file, answer)] ∧
      answer.success = msg.success ∧
      (answer.file_registry_service_updated = true ↔
        ∃ p frs, matchedRequest self.pending_file_copies msg = some p ∧
          p.file_registry_service = some frs ∧
          env.addEntry frs msg.file msg.storage_service = none) ∧
      (∀ p frs cause, matchedRequest self.pending_file_copies msg = some p →
          p.file_registry_service = some frs →
          env.addEntry frs msg.file msg.storage_service = some cause →
          answer.file_registry_service_updated = false ∧
          addEntryCalls (self.processNextMessage env
            (.message (some (.StorageServiceFileCopyAnswerMessage msg)))).calls
            = [.addEntry frs msg.file msg.storage_service]) := by
  refine ⟨by rw [processNextMessage_answer], _, forwardedMessages_answer self env msg, rfl, ?_, ?_⟩
  · constructor
    · intro h
      cases hm : matchedRequest self.pending_file_copies msg with
      | none => simp [matchedRegistry, hm] at h
      | some p =>
        cases hr : p.file_registry_service with
        | none => simp [matchedRegistry, hm, hr] at h
        | some frs =>
          refine ⟨p, frs, rfl, hr, ?_⟩
          simpa [matchedRegistry, hm, hr] using h
    · rintro ⟨p, frs, hm, hr, hadd⟩
      simp [matchedRegistry, hm, hr, hadd]
  · intro p frs cause hm hr hadd
    constructor
    · simp [matchedRegistry, hm, hr, hadd]
    · rw [addEntryCalls_answer]
      simp [matchedRegistry, hm, hr]

/-- Witness of C9: the pending request (1, 3, "/") carries registry 7 and every
`addEntry` fails; the completion is still processed (true is returned), `addEntry` was
tried once and the forwarded answer reports success with the registry not updated. -/
theorem C9_registry_update_best_effort_witness :
    (DataMovementManager.processNextMessage ⟨"dmm", [⟨1, 3, "/", some 7⟩]⟩
        failingRegistryEnvironment
        (.message (some (.StorageServiceFileCopyAnswerMessage
          ⟨1, 3, "/", none, false, true, none⟩)))).outcome = .ok true ∧
    (DataMovementManager.processNextMessage ⟨"dmm", [⟨1, 3, "/", some 7⟩]⟩
        failingRegistryEnvironment
        (.message (some (.StorageServiceFileCopyAnswerMessage
          ⟨1, 3, "/", none, false, true, none⟩)))).calls
      = [.addEntry 7 1 3, .dputMessage "wms" ⟨1, 3, "/", some 7, false, true, none⟩] :=
  ⟨(C9_registry_update_best_effort ⟨"dmm", [⟨1, 3, "/", some 7⟩]⟩ failingRegistryEnvironment
      ⟨1, 3, "/", none, false, true, none⟩).1, by decide⟩

/-- C10 fails on the code: the pending request (1, 3, "/") carries registry 7 and the
completion message for it reports a failed copy (success = false). `processNextMessage`
nevertheless calls `addEntry(1, 3)` on registry 7 and forwards an answer with
`file_registry_service_updated = true` and `success = false`. -/
theorem C10_registry_updated_after_failed_copy :
    (DataMovementManager.processNextMessage ⟨"dmm", [⟨1, 3, "/", some 7⟩]⟩ quietEnvironment
        (.message (some (.StorageServiceFileCopyAnswerMessage
          ⟨1, 3, "/", none, false, false, some (.other 5)⟩)))).calls
      = [.addEntry 7 1 3,
          .dputMessage "wms" ⟨1, 3, "/", some 7, true, false, some (.other 5)⟩] := by
  decide

theorem matchedRegistry_of_no_match (pending : List CopyRequestSpecs)
    (msg : StorageServiceFileCopyAnswerMessage)
    (hnone : ∀ q ∈ pending, ¬ (q.file = msg.file ∧ q.dst = msg.storage_service ∧
      q.dst_partition = msg.dst_partition)) :
    matchedRegistry pending msg = none := by
  have hfind : matchedRequest pending msg = none := by
    unfold matchedRequest
    rw [List.find?_eq_none]
    intro q hq hk
    exact hnone q hq ((operator_eq_requestOfAnswer msg q).mp hk)
  simp [matchedRegistry, hfind]

/-- C11 fails on the code: the pending list is empty and the completion message for
(1, 3, "/") carries registry 7 and reports success. `processNextMessage` makes no
`addEntry` call and the one answer it forwards carries no registry (and
`file_registry_service_updated = false`): the registry of the message is not used. -/
theorem C11_message_registry_not_used :
    (DataMovementManager.processNextMessage ⟨"dmm", []⟩ quietEnvironment
        (.message (some (.StorageServiceFileCopyAnswerMessage
          ⟨1, 3, "/", some 7, false, true, none⟩)))).calls
      = [.dputMessage "wms" ⟨1, 3, "/", none, false, true, none⟩] ∧
    ¬ ∃ mailbox answer,
      forwardedMessages (DataMovementManager.processNextMessage ⟨"dmm", []⟩ quietEnvironment
        (.message (some (.StorageServiceFileCopyAnswerMessage
          ⟨1, 3, "/", some 7, false, true, none⟩)))).calls = [(mailbox, answer)] ∧
      answer.file_registry_service = some 7 := by
  refine ⟨by decide, ?_⟩
  rintro ⟨mailbox, answer, hfw, hreg⟩
  have hcalls : forwardedMessages (DataMovementManager.processNextMessage ⟨"dmm", []⟩
      quietEnvironment (.message (some (.StorageServiceFileCopyAnswerMessage
        ⟨1, 3, "/", some 7, false, true, none⟩)))).calls
      = [("wms", ⟨1, 3, "/", none, false, true, none⟩)] := by decide
  rw [hcalls] at hfw
  simp only [List.cons.injEq, Prod.mk.injEq, and_true] at hfw
  rw [← hfw.2] at hreg
  exact absurd hreg (by decide)

/-- C11 as amended: when `processNextMessage` receives a copy-completion message that no
pending request matches, it leaves the manager unchanged, returns true and makes exactly
one call, the `dputMessage` of an answer to the callback mailbox of the workflow of the
message's file; that answer carries the message's file, service, partition, success flag
and failure cause, no registry and `file_registry_service_updated = false`. No
registration is attempted, whatever registry the message itself carries. -/
theorem C11_unmatched_completion_forwarded_without_registry (self : DataMovementManager)
    (env : Environment) (msg : StorageServiceFileCopyAnswerMessage)
    (hnone : ∀ q ∈ self.pending_file_copies,
      ¬ (q.file = msg.file ∧ q.dst = msg.storage_service ∧
        q.dst_partition = msg.dst_partition)) :
    self.processNextMessage env (.message (some (.StorageServiceFileCopyAnswerMessage msg)))
      = ⟨self,
          [.dputMessage (env.getCallbackMailbox msg.file)
            ⟨msg.file, msg.storage_service, msg.dst_partition, none, false, msg.success,
              msg.failure_cause⟩],
          .ok true⟩ := by
  rw [processNextMessage_answer, matchedRegistry_of_no_match _ _ hnone,
    List.eraseP_of_forall_not
      (fun a ha hka => hnone a ha ((operator_eq_requestOfAnswer msg a).mp hka))]
  rfl

/-- Witness of the amended C11: with only (9, 3, "/") pending, a completion for
(1, 3, "/") that carries registry 7 is forwarded without registry. -/
theorem C11_unmatched_completion_forwarded_without_registry_witness :
    DataMovementManager.processNextMessage ⟨"dmm", [⟨9, 3, "/", some 8⟩]⟩ quietEnvironment
        (.message (some (.StorageServiceFileCopyAnswerMessage
          ⟨1, 3, "/", some 7, false, true, none⟩)))
      = ⟨⟨"dmm", [⟨9, 3, "/", some 8⟩]⟩,
          [.dputMessage "wms" ⟨1, 3, "/", none, false, true, none⟩], .ok true⟩ :=
  C11_unmatched_completion_forwarded_without_registry ⟨"dmm", [⟨9, 3, "/", some 8⟩]⟩
    quietEnvironment ⟨1, 3, "/", some 7, false, true, none⟩ (by decide)

theorem doSynchronous_of_pending (self : DataMovementManager) (env : Environment)
    (file : WorkflowFile) (src : StorageService) (sp : String) (dst : StorageService)
    (dp : String) (frs : Option FileRegistryService)
    (h : isPending self.pending_file_copies ⟨file, dst, normalizePartition dp, frs⟩ = true) :
    self.doSynchronousFileCopy env (some file) (some src) sp (some dst) dp frs
      = ⟨self, [], .error (.WorkflowExecutionException
          (.FileAlreadyBeingCopied file dst (normalizePartition dp)))⟩ := by
  simp [DataMovementManager.doSynchronousFileCopy, h]

theorem isPending_false_of_fresh (pending : List CopyRequestSpecs) (request : CopyRequestSpecs)
    (hfresh : ∀ q ∈ pending, ¬ (q.file = request.file ∧ q.dst = request.dst ∧
      q.dst_partition = request.dst_partition)) :
    isPending pending request = false := by
  rw [Bool.eq_false_iff]
  intro h
  obtain ⟨q, hq, hk⟩ := (isPending_iff _ _).mp h
  exact hfresh q hq hk

theorem doSynchronous_of_not_pending (self : DataMovementManager) (env : Environment)
    (file : WorkflowFile) (src : StorageService) (sp : String) (dst : StorageService)
    (dp : String) (frs : Option FileRegistryService)
    (hfresh : ∀ q ∈ self.pending_file_copies,
      ¬ (q.file = file ∧ q.dst = dst ∧ q.dst_partition = normalizePartition dp)) :
    self.doSynchronousFileCopy env (some file) (some src) sp (some dst) dp frs
      = match env.copyFile dst file src with
        | some cause =>
          ⟨self, [.copyFile dst file src], .error (.WorkflowExecutionException cause)⟩
        | none =>
          match frs with
          | none => ⟨self, [.copyFile dst file src], .ok ()⟩
          | some r =>
            match env.addEntry r file dst with
            | none => ⟨self, [.copyFile dst file src, .addEntry r file dst], .ok ()⟩
            | some cause =>
              ⟨self, [.copyFile dst file src, .addEntry r file dst],
                .error (.WorkflowExecutionException cause)⟩ := by
  have h : isPending self.pending_file_copies ⟨file, dst, normalizePartition dp, frs⟩ = false :=
    isPending_false_of_fresh _ _ hfresh
  simp [DataMovementManager.doSynchronousFileCopy, h]

/-- C12 fails on the code: nothing is pending, `copyFile` succeeds and the registry's
`addEntry` fails with a `WorkflowExecutionException`; `doSynchronousFileCopy` does not
return normally, it raises that exception (the `throw;` of line 199). -/
theorem C12_registration_failure_is_raised :
    (failingRegistryEnvironment.copyFile 3 1 2 = none ∧
      failingRegistryEnvironment.addEntry 7 1 3 = some (.other 0)) ∧
    (DataMovementManager.doSynchronousFileCopy ⟨"dmm", []⟩ failingRegistryEnvironment
        (some 1) (some 2) "/" (some 3) "/" (some 7)).outcome
      = .error (.WorkflowExecutionException (.other 0)) ∧
    (DataMovementManager.doSynchronousFileCopy ⟨"dmm", []⟩ failingRegistryEnvironment
        (some 1) (some 2) "/" (some 3) "/" (some 7)).outcome ≠ .ok () := by
  refine ⟨⟨rfl, rfl⟩, rfl, ?_⟩
  intro h
  have h2 : (DataMovementManager.doSynchronousFileCopy ⟨"dmm", []⟩ failingRegistryEnvironment
      (some 1) (some 2) "/" (some 3) "/" (some 7)).outcome
      = .error (.WorkflowExecutionException (.other 0)) := rfl
  rw [h2] at h
  cases h

/-- C12 as amended: in `doSynchronousFileCopy` a registration failure is raised to the
caller. For every call with non-null file, src and dst, no equal request pending and a
non-null registry, in which `dst->copyFile` succeeds and the registry's `addEntry` fails
with a `WorkflowExecutionException`, the function has called `copyFile` then `addEntry`,
leaves the manager unchanged and raises that same exception. -/
theorem C12_registration_failure_propagates (self : DataMovementManager) (env : Environment)
    (file : WorkflowFile) (src : StorageService) (src_partition : String)
    (dst : StorageService) (dst_partition : String) (registry : FileRegistryService)
    (cause : FailureCause)
    (hfresh : ∀ q ∈ self.pending_file_copies,
      ¬ (q.file = file ∧ q.dst = dst ∧ q.dst_partition = normalizePartition dst_partition))
    (hcopy : env.copyFile dst file src = none)
    (hregistry : env.addEntry registry file dst = some cause) :
    self.doSynchronousFileCopy env (some file) (some src) src_partition (some dst)
        dst_partition (some registry)
      = ⟨self, [.copyFile dst file src, .addEntry registry file dst],
          .error (.WorkflowExecutionException cause)⟩ := by
  rw [doSynchronous_of_not_pending self env file src src_partition dst dst_partition
    (some registry) hfresh, hcopy]
  simp only [hregistry]

/-- Witness of the amended C12, at the input of the counterexample. -/
theorem C12_registration_failure_propagates_witness :
    DataMovementManager.doSynchronousFileCopy ⟨"dmm", []⟩ failingRegistryEnvironment
        (some 1) (some 2) "/" (some 3) "/" (some 7)
      = ⟨⟨"dmm", []⟩, [.copyFile 3 1 2, .addEntry 7 1 3],
          .error (.WorkflowExecutionException (.other 0))⟩ :=
  C12_registration_failure_propagates ⟨"dmm", []⟩ failingRegistryEnvironment 1 2 "/" 3 "/" 7
    (.other 0) (by decide) rfl rfl

/-- C13: `doSynchronousFileCopy` applies the same validation and dedup check as the
asynchronous call. With a null file, src or dst it raises `std::invalid_argument`; with
non-null arguments and a request equal on (file, dst, normalized dst_partition) pending
it raises `FileAlreadyBeingCopied`; in both cases the manager is unchanged and no call
is made (no `copyFile`, no `addEntry`). Otherwise the calls are `copyFile(file, src)` on
dst, once, followed by one `addEntry(file, dst)` exactly when `copyFile` succeeded and a
registry was supplied. -/
theorem C13_synchronous_validation_and_calls (self : DataMovementManager) (env : Environment)
    (file : Option WorkflowFile) (src dst : Option StorageService)
    (src_partition dst_partition : String) (file_registry_service : Option FileRegistryService)
    (f : WorkflowFile) (s d : StorageService) :
    ((file = none ∨ src = none ∨ dst = none) →
      self.doSynchronousFileCopy env file src src_partition dst dst_partition
          file_registry_service
        = ⟨self, [], .error .invalid_argument⟩) ∧
    ((∃ q ∈ self.pending_file_copies,
        q.file = f ∧ q.dst = d ∧ q.dst_partition = normalizePartition dst_partition) →
      self.doSynchronousFileCopy env (some f) (some s) src_partition (some d) dst_partition
          file_registry_service
        = ⟨self, [], .error (.WorkflowExecutionException
            (.FileAlreadyBeingCopied f d (normalizePartition dst_partition)))⟩) ∧
    ((∀ q ∈ self.pending_file_copies,
        ¬ (q.file = f ∧ q.dst = d ∧ q.dst_partition = normalizePartition dst_partition)) →
      (self.doSynchronousFileCopy env (some f) (some s) src_partition (some d) dst_partition
          file_registry_service).calls
        = .copyFile d f s ::
            (match env.copyFile d f s, file_registry_service with
              | none, some registry => [.addEntry registry f d]
              | _, _ => [])) := by
  refine ⟨fun hnull => ?_, fun hdup => ?_, fun hfresh => ?_⟩
  · rcases file with _ | file <;> rcases src with _ | src <;> rcases dst with _ | dst <;>
      first
      | rfl
      | (exfalso; simp at hnull)
  · exact doSynchronous_of_pending self env f s src_partition d dst_partition
      file_registry_service ((isPending_iff _ _).mpr hdup)
  · rw [doSynchronous_of_not_pending self env f s src_partition d dst_partition
      file_registry_service hfresh]
    cases hcopy : env.copyFile d f s with
    | some cause => rfl
    | none =>
      cases file_registry_service with
      | none => rfl
      | some registry => cases hadd : env.addEntry registry f d <;> simp [hadd]

/-- Witness of C13: with (1, 3, "/") pending, a synchronous copy of file 1 to service 3
fails as a duplicate without any call, while a synchronous copy of file 4 with registry 7
calls `copyFile` then `addEntry`. -/
theorem C13_synchronous_validation_and_calls_witness :
    DataMovementManager.doSynchronousFileCopy ⟨"dmm", [⟨1, 3, "/", none⟩]⟩ quietEnvironment
        (some 1) (some 2) "" (some 3) "" (some 7)
      = ⟨⟨"dmm", [⟨1, 3, "/", none⟩]⟩, [],
          .error (.WorkflowExecutionException
            (.FileAlreadyBeingCopied 1 3 (normalizePartition "")))⟩ ∧
    (DataMovementManager.doSynchronousFileCopy ⟨"dmm", [⟨1, 3, "/", none⟩]⟩ quietEnvironment
        (some 4) (some 2) "" (some 3) "" (some 7)).calls
      = [.copyFile 3 4 2, .addEntry 7 4 3] :=
  ⟨(C13_synchronous_validation_and_calls ⟨"dmm", [⟨1, 3, "/", none⟩]⟩ quietEnvironment
      none none none "" "" (some 7) 1 2 3).2.1 ⟨⟨1, 3, "/", none⟩, by simp, rfl, rfl, rfl⟩,
    (C13_synchronous_validation_and_calls ⟨"dmm", [⟨1, 3, "/", none⟩]⟩ quietEnvironment
      none none none "" "" (some 7) 4 2 3).2.2 (by decide)⟩

/-- C14: `doSynchronousFileCopy` leaves no request behind. For every manager state,
every environment and every argument, hence whatever the outcome (normal return,
`invalid_argument`, duplicate failure, copy failure, registry failure), the manager
after the call, its pending list included, is the manager before the call. -/
theorem C14_synchronous_copy_keeps_pending_list (self : DataMovementManager)
    (env : Environment) (file : Option WorkflowFile) (src : Option StorageService)
    (src_partition : String) (dst : Option StorageService) (dst_partition : String)
    (file_registry_service : Option FileRegistryService) :
    (self.doSynchronousFileCopy env file src src_partition dst dst_partition
        file_registry_service).manager = self ∧
    (self.doSynchronousFileCopy env file src src_partition dst dst_partition
        file_registry_service).manager.pending_file_copies = self.pending_file_copies := by
  have h : (self.doSynchronousFileCopy env file src src_partition dst dst_partition
      file_registry_service).manager = self := by
    rcases file with _ | file <;> rcases src with _ | src <;> rcases dst with _ | dst <;>
      try rfl
    cases hp : isPending self.pending_file_copies
        ⟨file, dst, normalizePartition dst_partition, file_registry_service⟩ with
    | true =>
      rw [doSynchronous_of_pending self env file src src_partition dst dst_partition
        file_registry_service hp]
    | false =>
      simp only [DataMovementManager.doSynchronousFileCopy, hp]
      cases env.copyFile dst file src with
      | some cause => rfl
      | none =>
        cases file_registry_service with
        | none => rfl
        | some registry => cases hae : env.addEntry registry file dst <;> simp [hae]
  exact ⟨h, by rw [h]⟩

theorem main_cons_of_continue (self : DataMovementManager) (env : Environment)
    (received : Received) (rest : List (Environment × Received))
    (hout : (self.processNextMessage env received).outcome = .ok true) :
    DataMovementManager.main self ((env, received) :: rest)
      = (DataMovementManager.main (self.processNextMessage env received).manager rest).map
          fun r => { r with calls := (self.processNextMessage env received).calls ++ r.calls } := by
  simp only [DataMovementManager.main, hout]

theorem main_append_stop (pre : List (Environment × Received))
    (hpre : ∀ x ∈ pre, x.2.continues = true) (self : DataMovementManager) (env : Environment)
    (rest : List (Environment × Received)) :
    ∃ calls, DataMovementManager.main self
        (pre ++ (env, .message (some .ServiceStopDaemonMessage)) :: rest)
      = some ⟨self.run (asOperations pre), calls, .ok 0⟩ := by
  induction pre generalizing self with
  | nil => exact ⟨[], rfl⟩
  | cons x pre ih =>
    obtain ⟨e, received⟩ := x
    have hx : received.continues = true := hpre (e, received) (by simp)
    have hout : (self.processNextMessage e received).outcome = .ok true := by
      rcases received with _ | _ | _ | msg | name
      · rfl
      · simp [Received.continues] at hx
      · simp [Received.continues] at hx
      · rw [processNextMessage_answer]
      · simp [Received.continues] at hx
    obtain ⟨calls, hcalls⟩ := ih (fun y hy => hpre y (List.mem_cons_of_mem _ hy))
      (self.processNextMessage e received).manager
    refine ⟨(self.processNextMessage e received).calls ++ calls, ?_⟩
    rw [List.cons_append, main_cons_of_continue self e received _ hout, hcalls]
    rfl

/-- C15: on receiving a `ServiceStopDaemonMessage`, `processNextMessage` returns false,
leaves the manager (its pending list included) unchanged and makes no call: no registry
is contacted and nothing is forwarded. The loop of `main` then ends and `main` returns 0:
when the stop message comes after any receptions that let the loop go on, the manager
`main` ends with is the one those receptions produced, pending requests and all. -/
theorem C15_stop_message_ends_loop_without_cleanup (self : DataMovementManager)
    (env : Environment) (pre rest : List (Environment × Received)) :
    self.processNextMessage env (.message (some .ServiceStopDaemonMessage))
      = ⟨self, [], .ok false⟩ ∧
    DataMovementManager.main self ((env, .message (some .ServiceStopDaemonMessage)) :: rest)
      = some ⟨self, [], .ok 0⟩ ∧
    ((∀ x ∈ pre, x.2.continues = true) →
      ∃ calls, DataMovementManager.main self
          (pre ++ (env, .message (some .ServiceStopDaemonMessage)) :: rest)
        = some ⟨self.run (asOperations pre), calls, .ok 0⟩) :=
  ⟨rfl, rfl, fun hpre => main_append_stop pre hpre self env rest⟩

/-- Witness of C15: a manager with (1, 3, "/") pending receives the stop message, alone
or after a `NetworkError`; `main` returns 0 and the request is still pending. -/
theorem C15_stop_message_ends_loop_without_cleanup_witness :
    DataMovementManager.main ⟨"dmm", [⟨1, 3, "/", some 7⟩]⟩
        [(quietEnvironment, .message (some .ServiceStopDaemonMessage))]
      = some ⟨⟨"dmm", [⟨1, 3, "/", some 7⟩]⟩, [], .ok 0⟩ ∧
    DataMovementManager.main ⟨"dmm", [⟨1, 3, "/", some 7⟩]⟩
        [(quietEnvironment, .NetworkError),
          (quietEnvironment, .message (some .ServiceStopDaemonMessage))]
      = some ⟨⟨"dmm", [⟨1, 3, "/", some 7⟩]⟩, [], .ok 0⟩ :=
  ⟨(C15_stop_message_ends_loop_without_cleanup ⟨"dmm", [⟨1, 3, "/", some 7⟩]⟩
      quietEnvironment [] []).2.1, rfl⟩

/-- C16: dispatch in `processNextMessage` is closed. Every received non-null message
that is neither a `ServiceStopDaemonMessage` nor a `StorageServiceFileCopyAnswerMessage`
makes `processNextMessage` raise `std::runtime_error`, with the manager unchanged and no
call made; the exception leaves `main` as well. -/
theorem C16_unexpected_message_is_fatal (self : DataMovementManager) (env : Environment)
    (message : SimulationMessage) (rest : List (Environment × Received))
    (hstop : message ≠ .ServiceStopDaemonMessage)
    (hanswer : ∀ msg, message ≠ .StorageServiceFileCopyAnswerMessage msg) :
    self.processNextMessage env (.message (some message))
      = ⟨self, [], .error .runtime_error⟩ ∧
    DataMovementManager.main self ((env, .message (some message)) :: rest)
      = some ⟨self, [], .error .runtime_error⟩ := by
  cases message with
  | ServiceStopDaemonMessage => exact absurd rfl hstop
  | StorageServiceFileCopyAnswerMessage msg => exact absurd rfl (hanswer msg)
  | other name => exact ⟨rfl, rfl⟩

/-- Witness of C16: a message of another kind, received with (1, 3, "/") pending. -/
theorem C16_unexpected_message_is_fatal_witness :
    DataMovementManager.processNextMessage ⟨"dmm", [⟨1, 3, "/", none⟩]⟩ quietEnvironment
        (.message (some (.other "FILE_LOOKUP_ANSWER")))
      = ⟨⟨"dmm", [⟨1, 3, "/", none⟩]⟩, [], .error .runtime_error⟩ ∧
    DataMovementManager.main ⟨"dmm", [⟨1, 3, "/", none⟩]⟩
        [(quietEnvironment, .message (some (.other "FILE_LOOKUP_ANSWER")))]
      = some ⟨⟨"dmm", [⟨1, 3, "/", none⟩]⟩, [], .error .runtime_error⟩ :=
  C16_unexpected_message_is_fatal ⟨"dmm", [⟨1, 3, "/", none⟩]⟩ quietEnvironment
    (.other "FILE_LOOKUP_ANSWER") [] (by decide) (by intro msg; simp)

/-- C17: construction of a `NetworkConnection` is a total function of (type, file,
mailbox name, ack mailbox name): it either fails with `std::invalid_argument` or yields
the connection. It fails when the type is not one of the defined kinds (3, 4, 5 and 6
among them), when the mailbox name is empty, when a DATA kind has a null file, when the
CONTROL kind has a non-null file, and when `OUTGOING_DATA` or `INCOMING_CONTROL` is given
a non-empty ack mailbox name; with a non-empty mailbox name it succeeds for
(`INCOMING_CONTROL`, no file, no ack), (`INCOMING_DATA`, file, any ack) and
(`OUTGOING_DATA`, file, no ack). -/
theorem C17_network_connection_construction (type : Int) (file : Option WorkflowFile)
    (file_partition mailbox ack_mailbox : String) (f : WorkflowFile) :
    (NetworkConnection.new type file file_partition mailbox ack_mailbox
        = .error .invalid_argument ∨
      NetworkConnection.new type file file_partition mailbox ack_mailbox
        = .ok ⟨type, file, file_partition, mailbox, ack_mailbox⟩) ∧
    ((type ≠ NetworkConnection.INCOMING_DATA ∧ type ≠ NetworkConnection.OUTGOING_DATA ∧
        type ≠ NetworkConnection.INCOMING_CONTROL) →
      NetworkConnection.new type file file_partition mailbox ack_mailbox
        = .error .invalid_argument) ∧
    ((type = 3 ∨ type = 4 ∨ type = 5 ∨ type = 6) →
      NetworkConnection.new type file file_partition mailbox ack_mailbox
        = .error .invalid_argument) ∧
    (mailbox = "" →
      NetworkConnection.new type file file_partition mailbox ack_mailbox
        = .error .invalid_argument) ∧
    ((type = NetworkConnection.INCOMING_DATA ∨ type = NetworkConnection.OUTGOING_DATA) →
      NetworkConnection.new type none file_partition mailbox ack_mailbox
        = .error .invalid_argument) ∧
    (NetworkConnection.new NetworkConnection.INCOMING_CONTROL (some f) file_partition mailbox
        ack_mailbox = .error .invalid_argument) ∧
    ((type = NetworkConnection.OUTGOING_DATA ∨ type = NetworkConnection.INCOMING_CONTROL) →
      ack_mailbox ≠ "" →
      NetworkConnection.new type file file_partition mailbox ack_mailbox
        = .error .invalid_argument) ∧
    (mailbox ≠ "" →
      NetworkConnection.new NetworkConnection.INCOMING_CONTROL none file_partition mailbox ""
          = .ok ⟨NetworkConnection.INCOMING_CONTROL, none, file_partition, mailbox, ""⟩ ∧
      NetworkConnection.new NetworkConnection.INCOMING_DATA (some f) file_partition mailbox
          ack_mailbox
          = .ok ⟨NetworkConnection.INCOMING_DATA, some f, file_partition, mailbox,
              ack_mailbox⟩ ∧
      NetworkConnection.new NetworkConnection.OUTGOING_DATA (some f) file_partition mailbox ""
          = .ok ⟨NetworkConnection.OUTGOING_DATA, some f, file_partition, mailbox, ""⟩) := by
  refine ⟨?_, ?_, ?_, ?_, ?_, ?_, ?_, ?_⟩
  · unfold NetworkConnection.new
    split_ifs <;> simp
  · intro h
    simp [NetworkConnection.new, h]
  · intro h
    have h3 : type ≠ NetworkConnection.INCOMING_DATA ∧ type ≠ NetworkConnection.OUTGOING_DATA ∧
        type ≠ NetworkConnection.INCOMING_CONTROL := by
      simp only [NetworkConnection.INCOMING_DATA, NetworkConnection.OUTGOING_DATA,
        NetworkConnection.INCOMING_CONTROL]
      omega
    simp [NetworkConnection.new, h3]
  · intro h
    unfold NetworkConnection.new
    split_ifs <;> rfl
  · intro h
    unfold NetworkConnection.new
    split_ifs with h1 h2 h3 <;> first | rfl | (exfalso; exact h3 ⟨h, rfl⟩)
  · unfold NetworkConnection.new
    split_ifs with h1 h2 h3 h4 <;> first | rfl | (exfalso; exact h4 ⟨rfl, by simp⟩)
  · intro h hack
    unfold NetworkConnection.new
    split_ifs with h1 h2 h3 h4 h5 <;> first | rfl | (exfalso; exact h5 ⟨h, hack⟩)
  · intro hm
    refine ⟨?_, ?_, ?_⟩ <;>
      simp [NetworkConnection.new, NetworkConnection.INCOMING_DATA,
        NetworkConnection.OUTGOING_DATA, NetworkConnection.INCOMING_CONTROL, hm]

/-- Witness of C17: the assertions of `InternalNetworkConnectionTest.cpp`, lines 61-84,
in their order (file stands for a non-null file). -/
theorem C17_network_connection_construction_witness :
    (NetworkConnection.new 3 none "/" "" "" = .error .invalid_argument ∧
      NetworkConnection.new 4 none "/" "" "" = .error .invalid_argument ∧
      NetworkConnection.new 5 none "/" "" "" = .error .invalid_argument ∧
      NetworkConnection.new 6 none "/" "" "" = .error .invalid_argument) ∧
    NetworkConnection.new NetworkConnection.INCOMING_DATA (some 1) "/" "" "ack"
      = .error .invalid_argument ∧
    (NetworkConnection.new NetworkConnection.INCOMING_DATA none "/" "mailbox_name" "ack"
        = .error .invalid_argument ∧
      NetworkConnection.new NetworkConnection.OUTGOING_DATA none "/" "mailbox_name" ""
        = .error .invalid_argument) ∧
    (NetworkConnection.new NetworkConnection.OUTGOING_DATA none "/" "mailbox_name" "ack"
        = .error .invalid_argument ∧
      NetworkConnection.new NetworkConnection.INCOMING_CONTROL none "/" "mailbox_name" "ack"
        = .error .invalid_argument) ∧
    NetworkConnection.new NetworkConnection.INCOMING_CONTROL (some 1) "/" "mailbox_name" ""
      = .error .invalid_argument ∧
    (NetworkConnection.new NetworkConnection.INCOMING_CONTROL none "/" "mailbox_name" ""
        = .ok ⟨NetworkConnection.INCOMING_CONTROL, none, "/", "mailbox_name", ""⟩ ∧
      NetworkConnection.new NetworkConnection.INCOMING_DATA (some 1) "/" "mailbox_name" "ack"
        = .ok ⟨NetworkConnection.INCOMING_DATA, some 1, "/", "mailbox_name", "ack"⟩ ∧
      NetworkConnection.new NetworkConnection.OUTGOING_DATA (some 1) "/" "mailbox_name" ""
        = .ok ⟨NetworkConnection.OUTGOING_DATA, some 1, "/", "mailbox_name", ""⟩) :=
  ⟨⟨(C17_network_connection_construction 3 none "/" "" "" 1).2.2.1 (Or.inl rfl),
      (C17_network_connection_construction 4 none "/" "" "" 1).2.2.1 (Or.inr (Or.inl rfl)),
      (C17_network_connection_construction 5 none "/" "" "" 1).2.2.1
        (Or.inr (Or.inr (Or.inl rfl))),
      (C17_network_connection_construction 6 none "/" "" "" 1).2.2.1
        (Or.inr (Or.inr (Or.inr rfl)))⟩,
    (C17_network_connection_construction NetworkConnection.INCOMING_DATA (some 1) "/" "" "ack"
      1).2.2.2.1 rfl,
    ⟨(C17_network_connection_construction NetworkConnection.INCOMING_DATA none "/"
        "mailbox_name" "ack" 1).2.2.2.2.1 (Or.inl rfl),
      (C17_network_connection_construction NetworkConnection.OUTGOING_DATA none "/"
        "mailbox_name" "" 1).2.2.2.2.1 (Or.inr rfl)⟩,
    ⟨(C17_network_connection_construction NetworkConnection.OUTGOING_DATA none "/"
        "mailbox_name" "ack" 1).2.2.2.2.2.2.1 (Or.inl rfl) (by decide),
      (C17_network_connection_construction NetworkConnection.INCOMING_CONTROL none "/"
        "mailbox_name" "ack" 1).2.2.2.2.2.2.1 (Or.inr rfl) (by decide)⟩,
    (C17_network_connection_construction 0 none "/" "mailbox_name" "" 1).2.2.2.2.2.1,
    (C17_network_connection_construction 0 none "/" "mailbox_name" "ack" 1).2.2.2.2.2.2.2
      (by decide)⟩

/-- C18: awaiting completion on an outgoing connection is a usage error. For every
`OUTGOING_DATA` connection that was constructed successfully, `getMessage()` fails with
`std::runtime_error`, whatever arrives: it never returns a message. -/
theorem C18_outgoing_connection_has_no_message (file : Option WorkflowFile)
    (file_partition mailbox ack_mailbox : String) (connection : NetworkConnection)
    (arrived : Option SimulationMessage)
    (hnew : NetworkConnection.new NetworkConnection.OUTGOING_DATA file file_partition mailbox
      ack_mailbox = .ok connection) :
    connection.getMessage arrived = .error .runtime_error ∧
    ∀ message, connection.getMessage arrived ≠ .ok message := by
  have htype : connection.type = NetworkConnection.OUTGOING_DATA := by
    unfold NetworkConnection.new at hnew
    split_ifs at hnew
    simp only [Except.ok.injEq] at hnew
    rw [← hnew]
  have hfail : connection.getMessage arrived = .error .runtime_error := by
    simp [NetworkConnection.getMessage, htype]
  refine ⟨hfail, fun message h => ?_⟩
  rw [hfail] at h
  cases h

/-- Witness of C18: lines 87-88 of the test. -/
theorem C18_outgoing_connection_has_no_message_witness :
    NetworkConnection.new NetworkConnection.OUTGOING_DATA (some 1) "/" "mailbox_name" ""
      = .ok ⟨NetworkConnection.OUTGOING_DATA, some 1, "/", "mailbox_name", ""⟩ ∧
    NetworkConnection.getMessage ⟨NetworkConnection.OUTGOING_DATA, some 1, "/", "mailbox_name", ""⟩
      (some (.other "ack")) = .error .runtime_error :=
  ⟨rfl, (C18_outgoing_connection_has_no_message (some 1) "/" "mailbox_name" ""
    ⟨NetworkConnection.OUTGOING_DATA, some 1, "/", "mailbox_name", ""⟩ (some (.other "ack"))
    rfl).1⟩

theorem sum_on_host_append (g : VirtualMachine → Nat) (vms : List VirtualMachine)
    (vm : VirtualMachine) (host : String) :
    (((vms ++ [vm]).filter fun v => v.pm_hostname = host).map g).sum
      = ((vms.filter fun v => v.pm_hostname = host).map g).sum
        + (if vm.pm_hostname = host then g vm else 0) := by
  by_cases h : vm.pm_hostname = host
  · simp [List.filter_append, List.filter_cons, h]
  · simp [List.filter_append, List.filter_cons, h]

theorem sum_per_host_append (g : VirtualMachine → Nat) (vms : List VirtualMachine)
    (vm : VirtualMachine) (hosts : List String) :
    (hosts.map fun host =>
        (((vms ++ [vm]).filter fun v => v.pm_hostname = host).map g).sum).sum
      = (hosts.map fun host => ((vms.filter fun v => v.pm_hostname = host).map g).sum).sum
        + hosts.count vm.pm_hostname * g vm := by
  induction hosts with
  | nil => simp
  | cons host rest ih =>
    rw [List.map_cons, List.sum_cons, List.map_cons, List.sum_cons, ih,
      sum_on_host_append g vms vm host, List.count_cons]
    by_cases h : vm.pm_hostname = host
    · subst h
      simp only [beq_self_eq_true, if_true, Nat.add_mul, Nat.one_mul]
      omega
    · have h2 : (host == vm.pm_hostname) = false := by
        simp only [beq_eq_false_iff_ne, ne_eq]
        exact fun e => h e.symm
      simp only [h, h2, if_false, Bool.false_eq_true, Nat.add_zero]
      omega

theorem createVM_ok (self : VirtualizedClusterService) (platform : Platform)
    (pm_hostname : String) (num_cores disk_size id : Nat) (after : VirtualizedClusterService)
    (hcreate : self.createVM platform pm_hostname num_cores disk_size = .ok (id, after)) :
    pm_hostname ∈ self.execution_hosts ∧
    after = { self with vms := self.vms ++ [⟨self.vms.length, pm_hostname,
      (if num_cores = 0 then (platform.lookup pm_hostname).getD 0 else num_cores),
      (if num_cores = 0 then (platform.lookup pm_hostname).getD 0 else num_cores)⟩] } := by
  unfold VirtualizedClusterService.createVM at hcreate
  by_cases hmem : pm_hostname ∈ self.execution_hosts
  · simp only [hmem, not_true_eq_false, if_false] at hcreate
    cases hl : platform.lookup pm_hostname with
    | none => simp [hl] at hcreate
    | some host_cores =>
      simp only [hl] at hcreate
      split_ifs at hcreate with h1 h2 h2
      · simp only [Except.ok.injEq, Prod.mk.injEq] at hcreate
        exact ⟨hmem, by rw [← hcreate.2]; simp [h1]⟩
      · simp only [Except.ok.injEq, Prod.mk.injEq] at hcreate
        exact ⟨hmem, by rw [← hcreate.2]; simp [h1]⟩
  · simp [hmem] at hcreate

/-- C19: the core counts of a cloud service reflect the VMs only. A service that has
just been constructed reports 0 for every execution host, so `getNumCores()` and
`getNumIdleCores()` both sum to 0. Every successful `createVM(host, n, ...)`, on a
service whose execution hosts are listed once each, raises both sums by the cores of the
new VM: `n`, or all the cores of the host when `n = 0`. -/
theorem C19_core_counts_reflect_vms (hostname : String) (execution_hosts : List String)
    (scratch_space_size : Nat) (property_list : List (String × String)) (fresh : CloudService)
    (self : CloudService) (platform : Platform) (pm_hostname : String)
    (num_cores disk_size id : Nat) (after : CloudService) :
    (CloudService.new hostname execution_hosts scratch_space_size property_list = .ok fresh →
      (∀ c ∈ fresh.getNumCores, c = 0) ∧ (∀ c ∈ fresh.getNumIdleCores, c = 0) ∧
      fresh.getNumCores.sum = 0 ∧ fresh.getNumIdleCores.sum = 0) ∧
    (self.execution_hosts.Nodup →
      self.createVM platform pm_hostname num_cores disk_size = .ok (id, after) →
      after.getNumCores.sum = self.getNumCores.sum +
          (if num_cores = 0 then (platform.lookup pm_hostname).getD 0 else num_cores) ∧
      after.getNumIdleCores.sum = self.getNumIdleCores.sum +
          (if num_cores = 0 then (platform.lookup pm_hostname).getD 0 else num_cores)) := by
  constructor
  · intro hnew
    unfold CloudService.new VirtualizedClusterService.new at hnew
    split_ifs at hnew
    simp only [Except.ok.injEq] at hnew
    subst hnew
    simp [VirtualizedClusterService.getNumCores, VirtualizedClusterService.getNumIdleCores]
  · intro hnodup hcreate
    obtain ⟨hmem, hafter⟩ := createVM_ok self platform pm_hostname num_cores disk_size id after
      hcreate
    have hcount : self.execution_hosts.count pm_hostname = 1 :=
      List.count_eq_one_of_mem hnodup hmem
    subst hafter
    constructor
    · have h := sum_per_host_append (fun vm => vm.num_cores) self.vms
        ⟨self.vms.length, pm_hostname,
          (if num_cores = 0 then (platform.lookup pm_hostname).getD 0 else num_cores),
          (if num_cores = 0 then (platform.lookup pm_hostname).getD 0 else num_cores)⟩
        self.execution_hosts
      simp only [hcount, Nat.one_mul] at h
      exact h
    · have h := sum_per_host_append (fun vm => vm.idle_cores) self.vms
        ⟨self.vms.length, pm_hostname,
          (if num_cores = 0 then (platform.lookup pm_hostname).getD 0 else num_cores),
          (if num_cores = 0 then (platform.lookup pm_hostname).getD 0 else num_cores)⟩
        self.execution_hosts
      simp only [hcount, Nat.one_mul] at h
      exact h

/-- Witness of C19, the scenario of `CloudNumCoresTestWMS::main`: a cloud service on the
4-core host reports sums 0 and 0; after `createVM(host, 0, 10)` the sums are 4 and 4;
after a following `createVM(host, 2, 10)` on the same host they are 6 and 6. -/
theorem C19_core_counts_reflect_vms_witness :
    (VirtualizedClusterService.getNumCores
        ⟨"DualCoreHost", ["QuadCoreHost"], 0, [], []⟩).sum = 0 ∧
    (VirtualizedClusterService.getNumIdleCores
        ⟨"DualCoreHost", ["QuadCoreHost"], 0, [], []⟩).sum = 0 ∧
    VirtualizedClusterService.createVM ⟨"DualCoreHost", ["QuadCoreHost"], 0, [], []⟩
        testPlatform "QuadCoreHost" 0 10
      = .ok (0, ⟨"DualCoreHost", ["QuadCoreHost"], 0, [], [⟨0, "QuadCoreHost", 4, 4⟩]⟩) ∧
    (VirtualizedClusterService.getNumCores
        ⟨"DualCoreHost", ["QuadCoreHost"], 0, [], [⟨0, "QuadCoreHost", 4, 4⟩]⟩).sum = 4 ∧
    (VirtualizedClusterService.getNumIdleCores
        ⟨"DualCoreHost", ["QuadCoreHost"], 0, [], [⟨0, "QuadCoreHost", 4, 4⟩]⟩).sum = 4 ∧
    VirtualizedClusterService.createVM
        ⟨"DualCoreHost", ["QuadCoreHost"], 0, [], [⟨0, "QuadCoreHost", 4, 4⟩]⟩
        testPlatform "QuadCoreHost" 2 10
      = .ok (1, ⟨"DualCoreHost", ["QuadCoreHost"], 0, [],
          [⟨0, "QuadCoreHost", 4, 4⟩, ⟨1, "QuadCoreHost", 2, 2⟩]⟩) ∧
    (VirtualizedClusterService.getNumCores
        ⟨"DualCoreHost", ["QuadCoreHost"], 0, [],
          [⟨0, "QuadCoreHost", 4, 4⟩, ⟨1, "QuadCoreHost", 2, 2⟩]⟩).sum = 4 + 2 ∧
    (VirtualizedClusterService.getNumIdleCores
        ⟨"DualCoreHost", ["QuadCoreHost"], 0, [],
          [⟨0, "QuadCoreHost", 4, 4⟩, ⟨1, "QuadCoreHost", 2, 2⟩]⟩).sum = 4 + 2 := by
  have h0 := (C19_core_counts_reflect_vms "DualCoreHost" ["QuadCoreHost"] 0 []
    ⟨"DualCoreHost", ["QuadCoreHost"], 0, [], []⟩
    ⟨"DualCoreHost", ["QuadCoreHost"], 0, [], [⟨0, "QuadCoreHost", 4, 4⟩]⟩
    testPlatform "QuadCoreHost" 2 10 1
    ⟨"DualCoreHost", ["QuadCoreHost"], 0, [],
      [⟨0, "QuadCoreHost", 4, 4⟩, ⟨1, "QuadCoreHost", 2, 2⟩]⟩)
  have hfresh := h0.1 rfl
  have hstep := h0.2 (by decide) rfl
  exact ⟨hfresh.2.2.1, hfresh.2.2.2, rfl, by decide, by decide, rfl, hstep.1, hstep.2⟩

/-- C20: constructing a `VirtualizedClusterService`, and hence a `CloudService`, with an
empty list of execution hosts fails with `std::invalid_argument`, for every hostname,
scratch size and property list; with a non-empty list of hosts the construction succeeds
and gives a service with those execution hosts and no VM. -/
theorem C20_empty_host_list_is_invalid (hostname : String) (execution_hosts : List String)
    (scratch_space_size : Nat) (property_list : List (String × String)) :
    VirtualizedClusterService.new hostname [] scratch_space_size property_list
      = .error .invalid_argument ∧
    CloudService.new hostname [] scratch_space_size property_list
      = .error .invalid_argument ∧
    (execution_hosts ≠ [] →
      VirtualizedClusterService.new hostname execution_hosts scratch_space_size property_list
        = .ok ⟨hostname, execution_hosts, scratch_space_size, property_list, []⟩ ∧
      CloudService.new hostname execution_hosts scratch_space_size property_list
        = .ok ⟨hostname, execution_hosts, scratch_space_size, property_list, []⟩) := by
  refine ⟨rfl, rfl, fun hne => ?_⟩
  cases execution_hosts with
  | nil => exact absurd rfl hne
  | cons host rest => exact ⟨rfl, rfl⟩

/-- Witness of C20: lines 316-327 of the test, a service with no host and a service on
the two hosts of the platform. -/
theorem C20_empty_host_list_is_invalid_witness :
    VirtualizedClusterService.new "DualCoreHost" [] 100 [("SUPPORTS_PILOT_JOBS", "false")]
      = .error .invalid_argument ∧
    VirtualizedClusterService.new "DualCoreHost" ["DualCoreHost", "QuadCoreHost"] 100
        [("SUPPORTS_PILOT_JOBS", "false")]
      = .ok ⟨"DualCoreHost", ["DualCoreHost", "QuadCoreHost"], 100,
          [("SUPPORTS_PILOT_JOBS", "false")], []⟩ :=
  ⟨(C20_empty_host_list_is_invalid "DualCoreHost" ["DualCoreHost", "QuadCoreHost"] 100
      [("SUPPORTS_PILOT_JOBS", "false")]).1,
    ((C20_empty_host_list_is_invalid "DualCoreHost" ["DualCoreHost", "QuadCoreHost"] 100
      [("SUPPORTS_PILOT_JOBS", "false")]).2.2 (by decide)).1⟩

theorem doSynchronous_manager (self : DataMovementManager) (env : Environment)
    (file : Option WorkflowFile) (src : Option StorageService) (sp : String)
    (dst : Option StorageService) (dp : String) (frs : Option FileRegistryService) :
    (self.doSynchronousFileCopy env file src sp dst dp frs).manager = self := by
  rcases file with _ | file <;> rcases src with _ | src <;> rcases dst with _ | dst <;>
    try rfl
  cases hp : isPending self.pending_file_copies ⟨file, dst, normalizePartition dp, frs⟩ with
  | true => rw [doSynchronous_of_pending self env file src sp dst dp frs hp]
  | false =>
    simp only [DataMovementManager.doSynchronousFileCopy, hp]
    cases env.copyFile dst file src with
    | some cause => rfl
    | none =>
      cases frs with
      | none => rfl
      | some registry => cases hae : env.addEntry registry file dst <;> simp [hae]

theorem isPending_cons_of_isPending (pending : List CopyRequestSpecs)
    (p request : CopyRequestSpecs) (h : isPending pending request = true) :
    isPending (p :: pending) request = true := by
  unfold isPending at h ⊢
  rw [List.any_cons, h, Bool.or_true]

theorem isPending_step (self : DataMovementManager) (env : Environment) (op : Operation)
    (request : CopyRequestSpecs)
    (hop : op.completes request.file request.dst request.dst_partition = false)
    (h : isPending self.pending_file_copies request = true) :
    isPending (self.step env op).pending_file_copies request = true := by
  cases op with
  | initiateAsynchronousFileCopy file src sp dst dp frs =>
    simp only [DataMovementManager.step]
    rcases file with _ | file <;> rcases src with _ | src <;> rcases dst with _ | dst <;>
      try exact h
    rcases pending_after_initiate self env file src sp dst dp frs with h2 | h2
    · rw [h2]; exact h
    · rw [h2]; exact isPending_cons_of_isPending _ _ _ h
  | doSynchronousFileCopy file src sp dst dp frs =>
    simp only [DataMovementManager.step, doSynchronous_manager]
    exact h
  | processNextMessage received =>
    simp only [DataMovementManager.step]
    rcases received with _ | _ | _ | msg | name
    · exact h
    · exact h
    · exact h
    · rw [processNextMessage_answer]
      obtain ⟨q, hq, hk⟩ := (isPending_iff _ _).mp h
      have hne : ¬ (q.operator_eq (requestOfAnswer msg) = true) := by
        intro hqm
        have hkm := (operator_eq_requestOfAnswer msg q).mp hqm
        have : Operation.completes request.file request.dst request.dst_partition
            (.processNextMessage (.message (some (.StorageServiceFileCopyAnswerMessage msg))))
            = true := by
          simp only [Operation.completes, decide_eq_true_eq]
          exact ⟨hkm.1.symm.trans hk.1, hkm.2.1.symm.trans hk.2.1, hkm.2.2.symm.trans hk.2.2⟩
        rw [hop] at this
        exact Bool.false_ne_true this
      exact (isPending_iff _ _).mpr
        ⟨q, (List.mem_eraseP_of_neg (p := fun c => c.operator_eq (requestOfAnswer msg))
          (a := q) hne).mpr hq, hk⟩
    · exact h

theorem isPending_run (ops : List (Environment × Operation)) (self : DataMovementManager)
    (request : CopyRequestSpecs)
    (hops : ∀ x ∈ ops, x.2.completes request.file request.dst request.dst_partition = false)
    (h : isPending self.pending_file_copies request = true) :
    isPending (self.run ops).pending_file_copies request = true := by
  induction ops generalizing self with
  | nil => exact h
  | cons x rest ih =>
    obtain ⟨env, op⟩ := x
    exact ih _ (fun y hy => hops y (List.mem_cons_of_mem _ hy))
      (isPending_step self env op request (hops (env, op) (by simp)) h)

/-- C23: a failed hand-off is not rolled back. When `initiateAsynchronousFileCopy` passes
validation and the dedup check but `dst->initiateFileCopy` raises a
`WorkflowExecutionException`, that exception reaches the caller while the new request is
at the front of the pending list. From then on, after any operations of the manager among
which no completion message for that key is processed, `initiateAsynchronousFileCopy` and
`doSynchronousFileCopy` with the same (file, dst, dst_partition) fail with
`FileAlreadyBeingCopied`, whatever their source, registry and environment. Processing a
completion message for the key removes the request again. -/
theorem C23_failed_handoff_not_rolled_back (self : DataMovementManager) (env : Environment)
    (file : WorkflowFile) (src : StorageService) (src_partition : String)
    (dst : StorageService) (dst_partition : String)
    (file_registry_service : Option FileRegistryService) (cause : FailureCause)
    (hfresh : ∀ q ∈ self.pending_file_copies,
      ¬ (q.file = file ∧ q.dst = dst ∧ q.dst_partition = normalizePartition dst_partition))
    (hstorage : env.initiateFileCopy dst self.mailbox_name file src
      (normalizePartition src_partition) (normalizePartition dst_partition) = some cause) :
    self.initiateAsynchronousFileCopy env (some file) (some src) src_partition (some dst)
        dst_partition file_registry_service
      = ⟨⟨self.mailbox_name,
            ⟨file, dst, normalizePartition dst_partition, file_registry_service⟩ ::
              self.pending_file_copies⟩,
          [.initiateFileCopy dst self.mailbox_name file src (normalizePartition src_partition)
            (normalizePartition dst_partition)],
          .error (.WorkflowExecutionException cause)⟩ ∧
    (∀ (ops : List (Environment × Operation)) (env2 : Environment) (src2 : StorageService)
        (sp2 : String) (r2 : Option FileRegistryService),
      (∀ x ∈ ops, x.2.completes file dst (normalizePartition dst_partition) = false) →
      ((self.initiateAsynchronousFileCopy env (some file) (some src) src_partition (some dst)
          dst_partition file_registry_service).manager.run ops).initiateAsynchronousFileCopy
            env2 (some file) (some src2) sp2 (some dst) dst_partition r2
        = ⟨(self.initiateAsynchronousFileCopy env (some file) (some src) src_partition
              (some dst) dst_partition file_registry_service).manager.run ops, [],
            .error (.WorkflowExecutionException
              (.FileAlreadyBeingCopied file dst (normalizePartition dst_partition)))⟩ ∧
      ((self.initiateAsynchronousFileCopy env (some file) (some src) src_partition (some dst)
          dst_partition file_registry_service).manager.run ops).doSynchronousFileCopy
            env2 (some file) (some src2) sp2 (some dst) dst_partition r2
        = ⟨(self.initiateAsynchronousFileCopy env (some file) (some src) src_partition
              (some dst) dst_partition file_registry_service).manager.run ops, [],
            .error (.WorkflowExecutionException
              (.FileAlreadyBeingCopied file dst (normalizePartition dst_partition)))⟩) ∧
    (∀ (env3 : Environment) (msg : StorageServiceFileCopyAnswerMessage),
      msg.file = file → msg.storage_service = dst →
      msg.dst_partition = normalizePartition dst_partition →
      ((self.initiateAsynchronousFileCopy env (some file) (some src) src_partition (some dst)
          dst_partition file_registry_service).manager.processNextMessage env3
            (.message (some (.StorageServiceFileCopyAnswerMessage msg)))).manager = self) := by
  have hnp : isPending self.pending_file_copies
      ⟨file, dst, normalizePartition dst_partition, file_registry_service⟩ = false :=
    isPending_false_of_fresh _ _ hfresh
  have hres := initiate_of_not_pending self env file src src_partition dst dst_partition
    file_registry_service hnp
  rw [hstorage] at hres
  refine ⟨hres, fun ops env2 src2 sp2 r2 hops => ?_, fun env3 msg hf hd hp => ?_⟩
  · have hpend : isPending ((self.initiateAsynchronousFileCopy env (some file) (some src)
        src_partition (some dst) dst_partition file_registry_service).manager.run
        ops).pending_file_copies ⟨file, dst, normalizePartition dst_partition, r2⟩ = true :=
      isPending_run ops _ ⟨file, dst, normalizePartition dst_partition, r2⟩ hops
        (isPending_after_initiate self env file src src_partition dst dst_partition
          file_registry_service r2)
    exact ⟨initiate_of_pending _ env2 file src2 sp2 dst dst_partition r2 hpend,
      doSynchronous_of_pending _ env2 file src2 sp2 dst dst_partition r2 hpend⟩
  · rw [hres, processNextMessage_answer]
    have hhead : CopyRequestSpecs.operator_eq
        ⟨file, dst, normalizePartition dst_partition, file_registry_service⟩
        (requestOfAnswer msg) = true :=
      (operator_eq_requestOfAnswer msg _).mpr ⟨hf.symm, hd.symm, hp.symm⟩
    show (⟨self.mailbox_name,
      List.eraseP (fun c : CopyRequestSpecs => c.operator_eq (requestOfAnswer msg))
        (⟨file, dst, normalizePartition dst_partition, file_registry_service⟩ ::
          self.pending_file_copies)⟩ : DataMovementManager) = self
    rw [List.eraseP_cons_of_pos
      (p := fun c : CopyRequestSpecs => c.operator_eq (requestOfAnswer msg)) hhead]

/-- Witness of C23: nothing is pending and the storage service refuses the hand-off of
(1, 3, "/"); the exception reaches the caller and the request stays, so that a second
attempt fails as a duplicate. -/
theorem C23_failed_handoff_not_rolled_back_witness :
    DataMovementManager.initiateAsynchronousFileCopy ⟨"dmm", []⟩ failingStorageEnvironment
        (some 1) (some 2) "/" (some 3) "/" (some 7)
      = ⟨⟨"dmm", [⟨1, 3, normalizePartition "/", some 7⟩]⟩,
          [.initiateFileCopy 3 "dmm" 1 2 (normalizePartition "/") (normalizePartition "/")],
          .error (.WorkflowExecutionException (.other 1))⟩ ∧
    (DataMovementManager.initiateAsynchronousFileCopy ⟨"dmm", [⟨1, 3, "/", some 7⟩]⟩
        quietEnvironment (some 1) (some 2) "/" (some 3) "/" none).outcome
      = .error (.WorkflowExecutionException (.FileAlreadyBeingCopied 1 3 "/")) :=
  ⟨(C23_failed_handoff_not_rolled_back ⟨"dmm", []⟩ failingStorageEnvironment 1 2 "/" 3 "/"
      (some 7) (.other 1) (by decide) rfl).1, rfl⟩

/-- C24: continuation of the manager's loop. `processNextMessage` returns false exactly
for a null message and for a `ServiceStopDaemonMessage`. When receiving fails with a
`NetworkError` it returns true, with the manager unchanged and no call made. When the
forwarding of a completion answer fails with a `NetworkError` it returns true as well,
and everything done before stays: the pending list has lost the first request matching
the message, and the `addEntry` made on the matched request's registry is not undone;
the result is the same as when the forwarding succeeds. -/
theorem C24_loop_continuation (self : DataMovementManager) (env : Environment)
    (received : Received) (msg : StorageServiceFileCopyAnswerMessage) :
    ((self.processNextMessage env received).outcome = .ok false ↔
      (received = .message none ∨ received = .message (some .ServiceStopDaemonMessage))) ∧
    self.processNextMessage env .NetworkError = ⟨self, [], .ok true⟩ ∧
    ((∀ mailbox answer, env.dputMessage mailbox answer = true) →
      (self.processNextMessage env
          (.message (some (.StorageServiceFileCopyAnswerMessage msg)))).outcome = .ok true ∧
      (self.processNextMessage env
          (.message (some (.StorageServiceFileCopyAnswerMessage msg)))).manager.pending_file_copies
        = self.pending_file_copies.eraseP
            (fun p => p.operator_eq (requestOfAnswer msg)) ∧
      (self.processNextMessage env
          (.message (some (.StorageServiceFileCopyAnswerMessage msg)))).calls
        = (match matchedRegistry self.pending_file_copies msg with
            | none => []
            | some frs => [.addEntry frs msg.file msg.storage_service]) ++
          [.dputMessage (env.getCallbackMailbox msg.file)
            ⟨msg.file, msg.storage_service, msg.dst_partition,
              matchedRegistry self.pending_file_copies msg,
              (match matchedRegistry self.pending_file_copies msg with
                | none => false
                | some frs => (env.addEntry frs msg.file msg.storage_service).isNone),
              msg.success, msg.failure_cause⟩] ∧
      self.processNextMessage env (.message (some (.StorageServiceFileCopyAnswerMessage msg)))
        = self.processNextMessage { env with dputMessage := fun _ _ => false }
            (.message (some (.StorageServiceFileCopyAnswerMessage msg)))) := by
  refine ⟨?_, rfl, fun _ => ?_⟩
  · rcases received with _ | _ | _ | m | name
    · simp [DataMovementManager.processNextMessage]
    · simp [DataMovementManager.processNextMessage]
    · simp [DataMovementManager.processNextMessage]
    · rw [processNextMessage_answer]
      simp
    · simp [DataMovementManager.processNextMessage]
  · refine ⟨?_, ?_, ?_, ?_⟩
    · rw [processNextMessage_answer]
    · rw [processNextMessage_answer]
    · rw [processNextMessage_answer]
    · rw [processNextMessage_answer, processNextMessage_answer]

/-- Witness of C24: the pending request (1, 3, "/") carries registry 7; its completion
arrives while every `dputMessage` fails. True is returned, the request is gone and the
`addEntry` on registry 7 was made. -/
theorem C24_loop_continuation_witness :
    (DataMovementManager.processNextMessage ⟨"dmm", [⟨1, 3, "/", some 7⟩]⟩
        failingMailboxEnvironment
        (.message (some (.StorageServiceFileCopyAnswerMessage
          ⟨1, 3, "/", none, false, true, none⟩)))).outcome = .ok true ∧
    (DataMovementManager.processNextMessage ⟨"dmm", [⟨1, 3, "/", some 7⟩]⟩
        failingMailboxEnvironment
        (.message (some (.StorageServiceFileCopyAnswerMessage
          ⟨1, 3, "/", none, false, true, none⟩)))).manager.pending_file_copies = [] ∧
    (DataMovementManager.processNextMessage ⟨"dmm", [⟨1, 3, "/", some 7⟩]⟩
        failingMailboxEnvironment
        (.message (some (.StorageServiceFileCopyAnswerMessage
          ⟨1, 3, "/", none, false, true, none⟩)))).calls
      = [.addEntry 7 1 3, .dputMessage "wms" ⟨1, 3, "/", some 7, true, true, none⟩] :=
  ⟨((C24_loop_continuation ⟨"dmm", [⟨1, 3, "/", some 7⟩]⟩ failingMailboxEnvironment
      .NetworkError ⟨1, 3, "/", none, false, true, none⟩).2.2 (fun _ _ => rfl)).1,
    by decide, by decide⟩

/-- C25: `S4U_DaemonActor::operator()` calls the daemon's `main()` exactly once, before
anything else. When `main()` returns normally, `setTerminated()` is called once, after
it, and the operator returns; when `main()` raises an exception, for example the
`runtime_error` of a `DataMovementManager` that receives an unexpected message, the same
exception leaves the operator, `setTerminated()` is not called and the terminated flag
keeps its value. So a daemon that was not terminated is marked terminated exactly when
`main()` has returned normally. -/
theorem C25_daemon_actor_marks_termination (terminated : Bool)
    (main : Option (Except Exception Int)) (value : Int) (e : Exception)
    (manager : DataMovementManager) (env : Environment) (name : String)
    (rest : List (Environment × Received)) :
    (S4U_DaemonActor.operator_call terminated main).actions.count DaemonAction.main = 1 ∧
    (S4U_DaemonActor.operator_call terminated main).actions.head? = some DaemonAction.main ∧
    S4U_DaemonActor.operator_call terminated (some (.ok value))
      = ⟨true, [.main, .setTerminated], some (.ok ())⟩ ∧
    S4U_DaemonActor.operator_call terminated (some (.error e))
      = ⟨terminated, [.main], some (.error e)⟩ ∧
    S4U_DaemonActor.operator_call terminated none = ⟨terminated, [.main], none⟩ ∧
    ((S4U_DaemonActor.operator_call false main).terminated = true ↔
      ∃ v, main = some (.ok v)) ∧
    (DaemonAction.setTerminated ∈ (S4U_DaemonActor.operator_call terminated main).actions ↔
      ∃ v, main = some (.ok v)) ∧
    S4U_DaemonActor.runDataMovementManager false manager
        ((env, .message (some (.other name))) :: rest)
      = ⟨false, [.main], some (.error .runtime_error)⟩ ∧
    S4U_DaemonActor.runDataMovementManager false manager
        ((env, .message (some .ServiceStopDaemonMessage)) :: rest)
      = ⟨true, [.main, .setTerminated], some (.ok ())⟩ := by
  refine ⟨?_, ?_, rfl, rfl, rfl, ?_, ?_, rfl, rfl⟩
  · rcases main with _ | _ | _ <;> simp [S4U_DaemonActor.operator_call]
  · rcases main with _ | _ | _ <;> rfl
  · rcases main with _ | _ | v <;> simp [S4U_DaemonActor.operator_call]
  · rcases main with _ | _ | v <;> simp [S4U_DaemonActor.operator_call]

theorem steps_of_pending (self : DataMovementManager) (env : Environment)
    (file : WorkflowFile) (src : StorageService) (sp : String) (dst : StorageService)
    (dp : String) (frs : Option FileRegistryService)
    (h : isPending self.pending_file_copies ⟨file, dst, normalizePartition dp, frs⟩ = true) :
    self.initiateAsynchronousFileCopySteps env (some file) (some src) sp (some dst) dp frs
      = ⟨⟨self, []⟩,
          .error (.WorkflowExecutionException
            (.FileAlreadyBeingCopied file dst (normalizePartition dp))),
          [(.scan, ⟨self, []⟩)]⟩ := by
  simp [DataMovementManager.initiateAsynchronousFileCopySteps,
    DataMovementManager.initiateAsynchronousFileCopyBody, runStatements, Statement.exec, h]

theorem steps_of_not_pending (self : DataMovementManager) (env : Environment)
    (file : WorkflowFile) (src : StorageService) (sp : String) (dst : StorageService)
    (dp : String) (frs : Option FileRegistryService)
    (h : isPending self.pending_file_copies ⟨file, dst, normalizePartition dp, frs⟩ = false) :
    self.initiateAsynchronousFileCopySteps env (some file) (some src) sp (some dst) dp frs
      = ⟨⟨{ self with pending_file_copies :=
                ⟨file, dst, normalizePartition dp, frs⟩ :: self.pending_file_copies },
            [.initiateFileCopy dst self.mailbox_name file src (normalizePartition sp)
              (normalizePartition dp)]⟩,
          (match env.initiateFileCopy dst self.mailbox_name file src (normalizePartition sp)
              (normalizePartition dp) with
            | none => .ok ()
            | some cause => .error (.WorkflowExecutionException cause)),
          [(.scan, ⟨self, []⟩), (.push_front, ⟨self, []⟩),
            (.initiateFileCopy,
              ⟨{ self with pending_file_copies :=
                  ⟨file, dst, normalizePartition dp, frs⟩ :: self.pending_file_copies }, []⟩)]⟩ := by
  cases henv : env.initiateFileCopy dst self.mailbox_name file src (normalizePartition sp)
      (normalizePartition dp) with
  | none =>
    simp [DataMovementManager.initiateAsynchronousFileCopySteps,
      DataMovementManager.initiateAsynchronousFileCopyBody, runStatements, Statement.exec, h,
      henv]
  | some cause =>
    simp [DataMovementManager.initiateAsynchronousFileCopySteps,
      DataMovementManager.initiateAsynchronousFileCopyBody, runStatements, Statement.exec, h,
      henv]

theorem steps_result (self : DataMovementManager) (env : Environment)
    (file : Option WorkflowFile) (src : Option StorageService) (sp : String)
    (dst : Option StorageService) (dp : String) (frs : Option FileRegistryService) :
    self.initiateAsynchronousFileCopy env file src sp dst dp frs
      = (self.initiateAsynchronousFileCopySteps env file src sp dst dp frs).result := by
  rcases file with _ | file <;> rcases src with _ | src <;> rcases dst with _ | dst <;>
    try rfl
  cases hp : isPending self.pending_file_copies ⟨file, dst, normalizePartition dp, frs⟩ with
  | true =>
    rw [initiate_of_pending self env file src sp dst dp frs hp,
      steps_of_pending self env file src sp dst dp frs hp]
    rfl
  | false =>
    rw [initiate_of_not_pending self env file src sp dst dp frs hp,
      steps_of_not_pending self env file src sp dst dp frs hp]
    rfl

theorem body_order_forced (order : List Statement)
    (hperm : order.Perm DataMovementManager.initiateAsynchronousFileCopyBody)
    (hagree : ∀ (self : DataMovementManager) (env : Environment) (f : WorkflowFile)
      (s : StorageService) (sp : String) (d : StorageService) (dp : String)
      (frs : Option FileRegistryService),
      self.initiateAsynchronousFileCopy env (some f) (some s) sp (some d) dp frs
        = (runStatements env ⟨f, s, normalizePartition sp, d, normalizePartition dp, frs⟩
            ⟨self, []⟩ order).result) :
    order = DataMovementManager.initiateAsynchronousFileCopyBody := by
  have hlen : order.length = 3 := hperm.length_eq
  match order, hlen with
  | [a, b, c], _ =>
    have hdup := hagree ⟨"dmm", [⟨1, 3, "/", none⟩]⟩ quietEnvironment 1 2 "/" 3 "/" none
    have hfail := hagree ⟨"dmm", []⟩ failingStorageEnvironment 1 2 "/" 3 "/" none
    rcases a <;> rcases b <;> rcases c <;>
      first
      | rfl
      | exact absurd hperm (by decide)
      | exact absurd (congrArg Result.manager hdup) (by decide)
      | exact absurd (congrArg Result.calls hdup) (by decide)
      | exact absurd (congrArg Result.manager hfail) (by decide)

/-- C22: the dedup check-then-insert of `initiateAsynchronousFileCopy` is one
uninterrupted step. Run statement by statement, with a throw ending the run, the scan of
lines 119-123, the `push_front` of line 130 and the call of line 131 give exactly the
function (same manager, same calls, same outcome, for every input and every answer of
the storage service), and no other order of these three statements does. In every run
the statements executed are an initial part of scan, `push_front`, `initiateFileCopy`;
the scan and the `push_front` start in the state of entry, so no call to another service
has been made when the request is inserted; and the call `dst->initiateFileCopy` starts
with the request already at the front of the pending list and no call made before it.
When no equal request is pending, all three statements are run. -/
theorem C22_check_then_insert_uninterrupted (self : DataMovementManager) (env : Environment)
    (file : Option WorkflowFile) (src dst : Option StorageService)
    (src_partition dst_partition : String) (file_registry_service : Option FileRegistryService)
    (f : WorkflowFile) (s d : StorageService) (order : List Statement) :
    self.initiateAsynchronousFileCopy env file src src_partition dst dst_partition
        file_registry_service
      = (self.initiateAsynchronousFileCopySteps env file src src_partition dst dst_partition
          file_registry_service).result ∧
    (order.Perm DataMovementManager.initiateAsynchronousFileCopyBody →
      (∀ (m : DataMovementManager) (e : Environment) (f2 : WorkflowFile) (s2 : StorageService)
          (sp2 : String) (d2 : StorageService) (dp2 : String)
          (r2 : Option FileRegistryService),
        m.initiateAsynchronousFileCopy e (some f2) (some s2) sp2 (some d2) dp2 r2
          = (runStatements e
              ⟨f2, s2, normalizePartition sp2, d2, normalizePartition dp2, r2⟩
              ⟨m, []⟩ order).result) →
      order = DataMovementManager.initiateAsynchronousFileCopyBody) ∧
    List.IsPrefix
      ((self.initiateAsynchronousFileCopySteps env file src src_partition dst dst_partition
        file_registry_service).log.map Prod.fst)
      DataMovementManager.initiateAsynchronousFileCopyBody ∧
    (∀ x, (Statement.scan, x) ∈ (self.initiateAsynchronousFileCopySteps env file src
        src_partition dst dst_partition file_registry_service).log → x = ⟨self, []⟩) ∧
    (∀ x, (Statement.push_front, x) ∈ (self.initiateAsynchronousFileCopySteps env file src
        src_partition dst dst_partition file_registry_service).log → x = ⟨self, []⟩) ∧
    (∀ x, (Statement.initiateFileCopy, x) ∈ (self.initiateAsynchronousFileCopySteps env
        (some f) (some s) src_partition (some d) dst_partition file_registry_service).log →
      x = ⟨{ self with pending_file_copies :=
              ⟨f, d, normalizePartition dst_partition, file_registry_service⟩ ::
                self.pending_file_copies }, []⟩) ∧
    ((∀ q ∈ self.pending_file_copies,
        ¬ (q.file = f ∧ q.dst = d ∧ q.dst_partition = normalizePartition dst_partition)) →
      (self.initiateAsynchronousFileCopySteps env (some f) (some s) src_partition (some d)
        dst_partition file_registry_service).log.map Prod.fst
        = DataMovementManager.initiateAsynchronousFileCopyBody) := by
  refine ⟨steps_result self env file src src_partition dst dst_partition
    file_registry_service, fun hperm hagree => body_order_forced order hperm hagree,
    ?_, ?_, ?_, ?_, ?_⟩
  · rcases file with _ | file <;> rcases src with _ | src <;> rcases dst with _ | dst <;>
      try exact List.nil_prefix
    cases hp : isPending self.pending_file_copies
        ⟨file, dst, normalizePartition dst_partition, file_registry_service⟩ with
    | true =>
      rw [steps_of_pending self env file src src_partition dst dst_partition
        file_registry_service hp]
      exact ⟨[.push_front, .initiateFileCopy], rfl⟩
    | false =>
      rw [steps_of_not_pending self env file src src_partition dst dst_partition
        file_registry_service hp]
      exact ⟨[], rfl⟩
  · intro x hx
    rcases file with _ | file <;> rcases src with _ | src <;> rcases dst with _ | dst <;>
      try (simp [DataMovementManager.initiateAsynchronousFileCopySteps] at hx; done)
    cases hp : isPending self.pending_file_copies
        ⟨file, dst, normalizePartition dst_partition, file_registry_service⟩ with
    | true =>
      rw [steps_of_pending self env file src src_partition dst dst_partition
        file_registry_service hp] at hx
      simpa using hx
    | false =>
      rw [steps_of_not_pending self env file src src_partition dst dst_partition
        file_registry_service hp] at hx
      simpa using hx
  · intro x hx
    rcases file with _ | file <;> rcases src with _ | src <;> rcases dst with _ | dst <;>
      try (simp [DataMovementManager.initiateAsynchronousFileCopySteps] at hx; done)
    cases hp : isPending self.pending_file_copies
        ⟨file, dst, normalizePartition dst_partition, file_registry_service⟩ with
    | true =>
      rw [steps_of_pending self env file src src_partition dst dst_partition
        file_registry_service hp] at hx
      simp at hx
    | false =>
      rw [steps_of_not_pending self env file src src_partition dst dst_partition
        file_registry_service hp] at hx
      simpa using hx
  · intro x hx
    cases hp : isPending self.pending_file_copies
        ⟨f, d, normalizePartition dst_partition, file_registry_service⟩ with
    | true =>
      rw [steps_of_pending self env f s src_partition d dst_partition
        file_registry_service hp] at hx
      simp at hx
    | false =>
      rw [steps_of_not_pending self env f s src_partition d dst_partition
        file_registry_service hp] at hx
      simpa using hx
  · intro hfresh
    rw [steps_of_not_pending self env f s src_partition d dst_partition file_registry_service
      (isPending_false_of_fresh _ _ hfresh)]
    rfl

/-- Witness of C22: with (9, 3, "/") pending, the run of a request for file 1 from
service 2 to service 3 whose hand-off the storage service refuses: the three statements
are run in order, the request is in the list when the call starts, and it stays there
when the call throws. -/
theorem C22_check_then_insert_uninterrupted_witness :
    (DataMovementManager.initiateAsynchronousFileCopySteps ⟨"dmm", [⟨9, 3, "/", none⟩]⟩
        failingStorageEnvironment (some 1) (some 2) "" (some 3) "" (some 7)).log
      = [(.scan, ⟨⟨"dmm", [⟨9, 3, "/", none⟩]⟩, []⟩),
          (.push_front, ⟨⟨"dmm", [⟨9, 3, "/", none⟩]⟩, []⟩),
          (.initiateFileCopy,
            ⟨⟨"dmm", [⟨1, 3, "/", some 7⟩, ⟨9, 3, "/", none⟩]⟩, []⟩)] ∧
    DataMovementManager.initiateAsynchronousFileCopy ⟨"dmm", [⟨9, 3, "/", none⟩]⟩
        failingStorageEnvironment (some 1) (some 2) "" (some 3) "" (some 7)
      = (DataMovementManager.initiateAsynchronousFileCopySteps ⟨"dmm", [⟨9, 3, "/", none⟩]⟩
          failingStorageEnvironment (some 1) (some 2) "" (some 3) "" (some 7)).result ∧
    (DataMovementManager.initiateAsynchronousFileCopySteps ⟨"dmm", [⟨9, 3, "/", none⟩]⟩
        failingStorageEnvironment (some 1) (some 2) "" (some 3) "" (some 7)).log.map Prod.fst
      = DataMovementManager.initiateAsynchronousFileCopyBody :=
  ⟨by decide,
    (C22_check_then_insert_uninterrupted ⟨"dmm", [⟨9, 3, "/", none⟩]⟩
      failingStorageEnvironment (some 1) (some 2) (some 3) "" "" (some 7) 1 2 3 []).1,
    (C22_check_then_insert_uninterrupted ⟨"dmm", [⟨9, 3, "/", none⟩]⟩
      failingStorageEnvironment (some 1) (some 2) (some 3) "" "" (some 7) 1 2 3 []).2.2.2.2.2.2
      (by decide)⟩

end wrench
